import Mathlib

/-!
Shallow embedding of the AegisGuard network-traffic and attack simulation
engine (Python sources under `src/simulation` and `src/backend/simulation`)
together with proofs of the spec's testable properties.

Python `random.*` draws are modelled as explicit oracle inputs: every
function that consumes randomness takes an oracle record whose fields hold
the values the corresponding `random` calls would have returned.  All
theorems quantify over the oracle, so they hold for every possible run.
Wall-clock readings (`datetime.now()` deltas) are likewise oracle inputs.
Floating-point values that the engine only stores and compares are
modelled as rationals; the Shannon-entropy computation, which genuinely
uses `log2`, is modelled over the reals.
-/

namespace AegisGuard

/-- `Protocol` enum from `config/enums.py`. -/
inductive Protocol
  | tcp | udp | icmp | http | https | ssh | ftp | dns | dhcp
  | arp | bgp | ospf | tls | ipsec | smtp | pop3 | imap
deriving DecidableEq

/-- The `.value` string of each `Protocol` member. -/
def Protocol.value : Protocol → String
  | .tcp => "tcp" | .udp => "udp" | .icmp => "icmp" | .http => "http"
  | .https => "https" | .ssh => "ssh" | .ftp => "ftp" | .dns => "dns"
  | .dhcp => "dhcp" | .arp => "arp" | .bgp => "bgp" | .ospf => "ospf"
  | .tls => "tls" | .ipsec => "ipsec" | .smtp => "smtp" | .pop3 => "pop3"
  | .imap => "imap"

/-- `PacketType` enum from `config/enums.py`. -/
inductive PacketType
  | data | control | management | attack | response | routing
deriving DecidableEq

/-- `PacketStatus` enum from `config/enums.py`. -/
inductive PacketStatus
  | created | sent | inTransit | delivered | dropped | corrupted | queued
deriving DecidableEq

/-- `Direction` enum from `config/enums.py`. -/
inductive Direction
  | inbound | outbound | internal
deriving DecidableEq

/-- `QoSClass` enum from `config/enums.py`. -/
inductive QoSClass
  | bestEffort | background | standard | video | voice | critical | networkControl
deriving DecidableEq

/-- `AttackType` enum from `config/enums.py`. -/
inductive AttackType
  | portScan | ddos | malwareSpread | arpSpoofing | sqlInjection
  | bruteForce | xss | csrf | zeroDay
deriving DecidableEq

/-- The `.value` string of each `AttackType` member. -/
def AttackType.value : AttackType → String
  | .portScan => "port_scan" | .ddos => "ddos" | .malwareSpread => "malware_spread"
  | .arpSpoofing => "arp_spoofing" | .sqlInjection => "sql_injection"
  | .bruteForce => "brute_force" | .xss => "xss" | .csrf => "csrf"
  | .zeroDay => "zero_day"

/-- `TCPFlags` dataclass from `packet.py` (all flags default `False`). -/
structure TCPFlags where
  syn : Bool := false
  ack : Bool := false
  fin : Bool := false
  rst : Bool := false
  psh : Bool := false
  urg : Bool := false
deriving DecidableEq

/-- `TCPFlags.syn()` classmethod. -/
def TCPFlags.mkSyn : TCPFlags := { syn := true }

/-- `TCPFlags.syn_ack()` classmethod. -/
def TCPFlags.mkSynAck : TCPFlags := { syn := true, ack := true }

/-- `TCPFlags.ack()` classmethod. -/
def TCPFlags.mkAck : TCPFlags := { ack := true }

/-- `TCPFlags.fin_ack()` classmethod. -/
def TCPFlags.mkFinAck : TCPFlags := { fin := true, ack := true }

/-- `TCPFlags.to_int()`: pack the six flags into the TCP flag byte. -/
def TCPFlags.toInt (f : TCPFlags) : Nat :=
  (if f.fin then 1 else 0) + (if f.syn then 2 else 0) + (if f.rst then 4 else 0) +
  (if f.psh then 8 else 0) + (if f.ack then 16 else 0) + (if f.urg then 32 else 0)

/-- UTF-8 encoding of a single Unicode code point, as its list of bytes.
Mirrors `str.encode('utf-8')` acting on one character. -/
def utf8EncodeChar (c : Nat) : List Nat :=
  if c < 0x80 then [c]
  else if c < 0x800 then
    [0xC0 + c / 0x40, 0x80 + c % 0x40]
  else if c < 0x10000 then
    [0xE0 + c / 0x1000, 0x80 + (c / 0x40) % 0x40, 0x80 + c % 0x40]
  else
    [0xF0 + c / 0x40000, 0x80 + (c / 0x1000) % 0x40,
     0x80 + (c / 0x40) % 0x40, 0x80 + c % 0x40]

/-- `data.encode('utf-8')`: the byte sequence of a string (as a char list). -/
def utf8Encode (data : List Char) : List Nat :=
  data.flatMap (fun c => utf8EncodeChar c.toNat)

/-- `Packet._calculate_entropy(data)` from `src/simulation/packet.py`:
frequency of each byte of `data.encode('utf-8')`, a "probability"
`count / len(data)` per distinct byte (note: `len(data)` counts characters,
not bytes), Shannon sum over distinct bytes, normalized by 8 bits. -/
noncomputable def calculate_entropy (data : List Char) : ℝ :=
  if data = [] then 0
  else
    let bytes := utf8Encode data
    let total_len : ℝ := data.length
    ((bytes.dedup).map (fun b =>
      let probability : ℝ := (bytes.count b : ℝ) / total_len;
      -(probability * Real.logb 2 probability))).sum / 8

/-- The `Packet` dataclass from `src/simulation/packet.py` (the fields the
engine constructs and reads; `timestamp` is a wall-clock value supplied by
the constructing oracle where it matters, omitted otherwise). -/
structure Packet where
  packet_id : String
  flow_id : Option String := none
  source_id : String := ""
  destination_id : String := ""
  source_ip : String := ""
  destination_ip : String := ""
  source_port : Option Nat := none
  destination_port : Option Nat := none
  protocol : Protocol := .tcp
  packet_type : PacketType := .data
  tcp_flags : TCPFlags := {}
  sequence_number : Nat := 0
  acknowledgment_number : Nat := 0
  window_size : Nat := 65535
  checksum : Nat := 0
  payload : List Char := []
  payload_size : Nat := 0
  payload_entropy_q : ℚ := 0
  direction : Direction := .outbound
  qos_class : QoSClass := .bestEffort
  dscp : Nat := 0
  ecn_marked : Bool := false
  ttl : Nat := 64
  requires_ack : Bool := true
  status : PacketStatus := .created
  latency_accumulated : ℚ := 0
  jitter : ℚ := 0
  is_encrypted : Bool := false
  encryption_strength : Nat := 0
  is_malicious : Bool := false
  threat_score : ℚ := 0
  vlan_id : Option Nat := none

/-- `Packet._generate_flow_id()`: the flow id derived from the 5-tuple
(`source_port or 0` maps both `None` and `0` to `0`, as `Option.getD 0`
does). -/
def Packet.generate_flow_id (p : Packet) : String :=
  p.source_ip ++ ":" ++ toString (p.source_port.getD 0) ++ "-" ++
  p.destination_ip ++ ":" ++ toString (p.destination_port.getD 0) ++ "-" ++
  p.protocol.value

/-- The Shannon entropy the engine stores on a packet after construction:
the `__post_init__` value as a real (the rational field `payload_entropy_q`
holds explicitly-passed values; this resolves the final float). -/
noncomputable def Packet.payload_entropy (p : Packet) : ℝ :=
  if p.payload ≠ [] ∧ p.payload_entropy_q = 0 then calculate_entropy p.payload
  else (p.payload_entropy_q : ℝ)

/-- `Packet.__post_init__`: derive `flow_id` from the 5-tuple when the
constructor did not pass one (Python truthiness: `None` or `""` are both
"not set"), and fill `payload_size` from the UTF-8 length of a non-empty
payload when no explicit size was given. -/
def Packet.postInit (p : Packet) : Packet :=
  let p :=
    if p.flow_id = none ∨ p.flow_id = some "" then
      { p with flow_id := some p.generate_flow_id }
    else p
  let p :=
    if p.payload ≠ [] ∧ p.payload_size = 0 then
      { p with payload_size := (utf8Encode p.payload).length }
    else p
  p

/-- A `Packet(...)` constructor call: record literal followed by
`__post_init__`. -/
def mkPacket (p : Packet) : Packet := p.postInit

lemma postInit_flow_id (p : Packet) (hp : p.flow_id = none ∨ p.flow_id = some "") :
    (Packet.postInit p).flow_id = some p.generate_flow_id := by
  unfold Packet.postInit
  rcases hp with hp | hp <;> simp only [hp] <;> simp <;> split <;> rfl

/-- First packet used by the flow-id witness. -/
def flowWitnessA : Packet :=
  { packet_id := "pkt_a", source_ip := "10.0.0.1", source_port := some 1234,
    destination_ip := "10.0.0.2", destination_port := some 80, protocol := .tcp,
    payload := ['G', 'E', 'T'] }

/-- Second packet used by the flow-id witness: same 5-tuple, different kind,
different order of construction-relevant fields. -/
def flowWitnessB : Packet :=
  { packet_id := "pkt_b", source_ip := "10.0.0.1", source_port := some 1234,
    destination_ip := "10.0.0.2", destination_port := some 80, protocol := .tcp,
    packet_type := .attack, is_malicious := true }

/-- C1: flow-id derivation is a pure function of the 5-tuple — any two
packets constructed without an explicit flow id whose source address,
source port, destination address, destination port and protocol agree get
the same derived `flow_id` string, whatever the packet kind. -/
theorem flow_id_deterministic (p q : Packet)
    (hp : p.flow_id = none ∨ p.flow_id = some "")
    (hq : q.flow_id = none ∨ q.flow_id = some "")
    (h1 : p.source_ip = q.source_ip) (h2 : p.source_port = q.source_port)
    (h3 : p.destination_ip = q.destination_ip)
    (h4 : p.destination_port = q.destination_port)
    (h5 : p.protocol = q.protocol) :
    (mkPacket p).flow_id = (mkPacket q).flow_id := by
  show (Packet.postInit p).flow_id = (Packet.postInit q).flow_id
  rw [postInit_flow_id p hp, postInit_flow_id q hq]
  unfold Packet.generate_flow_id
  rw [h1, h2, h3, h4, h5]

/-- Witness for C1 at two concrete packets of different kinds. -/
theorem flow_id_deterministic_witness :
    flowWitnessA.flow_id = none ∧ flowWitnessB.flow_id = none ∧
    (mkPacket flowWitnessA).flow_id = (mkPacket flowWitnessB).flow_id :=
  ⟨rfl, rfl,
   flow_id_deterministic flowWitnessA flowWitnessB (Or.inl rfl) (Or.inl rfl)
     rfl rfl rfl rfl rfl⟩

/-- C6 (code bug): `_calculate_entropy` divides byte counts by the
*character* length of the payload, so on the single three-byte character
U+0924 (UTF-8 `e0 a4 a4`) the byte `a4` gets "probability" 2 and the sum
goes negative: the function returns −1/4, outside the documented [0,1]
range.  The empty-payload clause does return 0. -/
theorem calculate_entropy_negative_on_multibyte :
    calculate_entropy [] = 0 ∧
    calculate_entropy ['त'] = -(1/4) ∧ calculate_entropy ['त'] < 0 := by
  have henc : utf8Encode ['त'] = [0xE0, 0xA4, 0xA4] := by decide
  refine ⟨by simp [calculate_entropy], ?_, ?_⟩ <;>
    simp [calculate_entropy, henc, List.dedup, List.count, Real.logb_one,
      Real.logb_self_eq_one] <;> norm_num

/-! ## Traffic engine: `Connection` and the TCP state machine
(`src/backend/simulation/traffic_generator.py`). -/

/-- `TrafficPattern` enum from `config/enums.py`. -/
inductive TrafficPattern
  | webBrowsing | videoStreaming | fileTransfer | email | database
  | iotSensor | voip | videoConferencing | backup | gaming | cloudSync | apiCalls
deriving DecidableEq

/-- Python's `Enum.name` attribute: the upper-case member name (note this is
NOT the lower-case `.value`; the engine compares `.name` against lower-case
strings in several places, which therefore never match). -/
def TrafficPattern.name : TrafficPattern → String
  | .webBrowsing => "WEB_BROWSING" | .videoStreaming => "VIDEO_STREAMING"
  | .fileTransfer => "FILE_TRANSFER" | .email => "EMAIL" | .database => "DATABASE"
  | .iotSensor => "IOT_SENSOR" | .voip => "VOIP"
  | .videoConferencing => "VIDEO_CONFERENCING" | .backup => "BACKUP"
  | .gaming => "GAMING" | .cloudSync => "CLOUD_SYNC" | .apiCalls => "API_CALLS"

/-- `TrafficPattern.protocol` property: default protocol name string. -/
def TrafficPattern.protocolName : TrafficPattern → String
  | .webBrowsing => "HTTPS" | .videoStreaming => "UDP" | .fileTransfer => "TCP"
  | .email => "SMTP" | .database => "TCP" | .iotSensor => "UDP" | .voip => "UDP"
  | .videoConferencing => "UDP" | .backup => "TCP" | .gaming => "UDP"
  | .cloudSync => "HTTPS" | .apiCalls => "HTTPS"

/-- `TrafficPattern.packet_rate` property: packets per second. -/
def TrafficPattern.packet_rate : TrafficPattern → ℚ
  | .webBrowsing => 7.5 | .videoStreaming => 40 | .fileTransfer => 11
  | .email => 0.25 | .database => 25 | .iotSensor => 0.5 | .voip => 35
  | .videoConferencing => 65 | .backup => 10 | .gaming => 25
  | .cloudSync => 3 | .apiCalls => 2.5

/-- `TrafficPattern.avg_packet_size` property: bytes. -/
def TrafficPattern.avg_packet_size : TrafficPattern → Nat
  | .webBrowsing => 1500 | .videoStreaming => 1400 | .fileTransfer => 9000
  | .email => 50000 | .database => 800 | .iotSensor => 200 | .voip => 200
  | .videoConferencing => 1200 | .backup => 9000 | .gaming => 600
  | .cloudSync => 2000 | .apiCalls => 1200

/-- The TCP state strings stored in `Connection.tcp_state`. -/
inductive TcpState
  | closed | synSent | established | finWait
deriving DecidableEq

/-- `Connection` from `traffic_generator.py` (timestamps are wall-clock
readings, threaded as rationals). -/
structure Connection where
  conn_id : String
  source_id : String
  destination_id : String
  source_ip : String
  dest_ip : String
  protocol : Protocol
  source_port : Nat
  dest_port : Nat
  pattern : TrafficPattern
  tcp_state : TcpState
  next_seq : Nat
  next_ack : Nat
  flow_id : String
  packets_sent : Nat
  bytes_sent : Nat
  start_time : ℚ
  last_activity : ℚ
  qos_class : QoSClass
  dscp : Nat

/-- `Connection._determine_qos_class`: substring checks against the
upper-case `pattern.name` (they never match; see `TrafficPattern.name`). -/
def determine_qos_class (pattern : TrafficPattern) : QoSClass :=
  if "video".toList <:+: pattern.name.toList then .video
  else if "voice".toList <:+: pattern.name.toList ∨ pattern.name = "voip" then .voice
  else if "database".toList <:+: pattern.name.toList
      ∨ "query".toList <:+: pattern.name.toList then .critical
  else if "web".toList <:+: pattern.name.toList then .standard
  else if "email".toList <:+: pattern.name.toList
      ∨ "file".toList <:+: pattern.name.toList then .background
  else .bestEffort

/-- `Connection._determine_dscp`: DSCP value per QoS class. -/
def determine_dscp (q : QoSClass) : Nat :=
  match q with
  | .networkControl => 48 | .critical => 46 | .voice => 46 | .video => 34
  | .standard => 0 | .background => 8 | .bestEffort => 0

/-- Random draws consumed by `Connection.__init__`. -/
structure ConnInitOracle where
  initial_seq : Nat := 1000
  now : ℚ := 0

/-- `Connection.__init__`. -/
def Connection.init (conn_id source_id destination_id source_ip dest_ip : String)
    (protocol : Protocol) (source_port dest_port : Nat) (pattern : TrafficPattern)
    (o : ConnInitOracle) : Connection :=
  { conn_id, source_id, destination_id, source_ip, dest_ip, protocol,
    source_port, dest_port, pattern,
    tcp_state := .closed, next_seq := o.initial_seq, next_ack := 0,
    flow_id := source_ip ++ ":" ++ toString source_port ++ "-" ++
               dest_ip ++ ":" ++ toString dest_port ++ "-" ++ protocol.value,
    packets_sent := 0, bytes_sent := 0,
    start_time := o.now, last_activity := o.now,
    qos_class := determine_qos_class pattern,
    dscp := determine_dscp (determine_qos_class pattern) }

/-- Python `int(x)` on a non-negative-or-negative float/rational:
truncation toward zero. -/
def pyInt (q : ℚ) : ℤ := if 0 ≤ q then ⌊q⌋ else -⌊-q⌋

/-- The stochastic-rounding policy shared by the traffic and attack
engines: `packets_to_generate = int(expected)`, incremented by one when
`random.random()` falls below the fractional remainder. -/
def stochasticCount (expected frac_draw : ℚ) : ℤ :=
  let base := pyInt expected
  if frac_draw < expected - base then base + 1 else base

/-- Lookup of `Protocol(value)` from its string value. -/
def Protocol.fromValue (s : String) : Option Protocol :=
  if s = "tcp" then some .tcp else if s = "udp" then some .udp
  else if s = "icmp" then some .icmp else if s = "http" then some .http
  else if s = "https" then some .https else if s = "ssh" then some .ssh
  else if s = "ftp" then some .ftp else if s = "dns" then some .dns
  else if s = "dhcp" then some .dhcp else if s = "arp" then some .arp
  else if s = "bgp" then some .bgp else if s = "ospf" then some .ospf
  else if s = "tls" then some .tls else if s = "ipsec" then some .ipsec
  else if s = "smtp" then some .smtp else if s = "pop3" then some .pop3
  else if s = "imap" then some .imap else none

/-- `Packet.create_tcp_connection_syn` classmethod. -/
def create_tcp_connection_syn (source destination : String)
    (source_port dest_port : Nat) (uuid : String) (seq : Nat) : Packet :=
  mkPacket
    { packet_id := "tcp_syn_" ++ uuid, source_id := source,
      destination_id := destination, source_port := some source_port,
      destination_port := some dest_port, protocol := .tcp,
      tcp_flags := TCPFlags.mkSyn, sequence_number := seq, payload_size := 0,
      direction := .outbound }

/-- `Packet.create_tcp_data_packet` classmethod: parses the flow id back
into addressing.  Python unpacks exactly three `-`-separated parts (fewer
parts fall through to `return None`; more, or an unparseable port or
protocol, raise and abort the tick, which likewise yields no packet — both
are `none` here). -/
def create_tcp_data_packet (flow_id : String) (seq_num ack_num : Nat)
    (payload : List Char) (psh : Bool) (uuid : String) : Option Packet :=
  match flow_id.splitOn "-" with
  | [src_part, dst_part, proto] =>
    let src_ip_port := src_part.splitOn ":"
    let dst_ip_port := dst_part.splitOn ":"
    let source_port : Option Nat :=
      if src_ip_port.length > 1 then (src_ip_port.getD 1 "").toNat? else none
    let dest_port : Option Nat :=
      if dst_ip_port.length > 1 then (dst_ip_port.getD 1 "").toNat? else none
    if src_ip_port.length > 1 ∧ (src_ip_port.getD 1 "").toNat? = none then none
    else if dst_ip_port.length > 1 ∧ (dst_ip_port.getD 1 "").toNat? = none then none
    else
      match Protocol.fromValue proto.toLower with
      | none => none
      | some protocol =>
        some (mkPacket
          { packet_id := "tcp_data_" ++ uuid, flow_id := some flow_id,
            source_ip := src_ip_port.getD 0 "", source_port := source_port,
            destination_ip := dst_ip_port.getD 0 "", destination_port := dest_port,
            protocol := protocol, tcp_flags := { ack := true, psh := psh },
            sequence_number := seq_num, acknowledgment_number := ack_num,
            payload := payload, payload_size := (utf8Encode payload).length,
            direction := .outbound })
  | _ => none

/-- Per-data-packet random draws inside the `ESTABLISHED` branch. -/
structure DataPacketOracle where
  gauss_size : ℤ := 0      -- int(random.gauss(avg, avg*0.1))
  rand_n : Nat := 1        -- random.randint(1, 1000) in the default payload
  entropy : ℚ := 0.5       -- random.uniform draw for the entropy field
  psh_draw : ℚ := 0        -- random.random(); PSH flag iff draw > 0.7
  uuid : String := ""
  enc_strength : Nat := 80 -- random.randint(80, 100)

/-- Random draws consumed by one `_generate_tcp_packets` call. -/
structure TcpTickOracle where
  frac_draw : ℚ := 1       -- random.random() for stochastic rounding
  syn_uuid : String := ""
  syn_seq : Nat := 1000    -- randint inside create_tcp_connection_syn
  synack_seq : Nat := 1000 -- random.randint(1000, 9999)
  data : Nat → DataPacketOracle := fun _ => {}
  fin_draw : ℚ := 1        -- random.random() for the random close

/-- `max(64, int(random.gauss(...)))`: the drawn data-packet size. -/
def tcpDataPayloadSize (d : DataPacketOracle) : Nat := (max 64 d.gauss_size).toNat

/-- The pattern-dependent payload text of the `ESTABLISHED` branch (the
string comparisons are against the upper-case `pattern.name`, so the
fall-through branch is the one taken). -/
def tcpDataPayload (c : Connection) (d : DataPacketOracle) : List Char :=
  if c.pattern.name = "web_browsing" then
    "HTTP/1.1 200 OK\r\nContent-Type: text/html\r\n\r\n<html>".toList
  else if c.pattern.name = "database" then
    "\x7b\"query\":\"SELECT * FROM users\", \"result\":[...]\x7d".toList
  else if c.pattern.name = "video_streaming" then
    "RTP/AVP video data".toList
  else
    (c.pattern.name ++ " data " ++ toString d.rand_n).toList

/-- Body of one iteration of the `ESTABLISHED` data loop: build the
payload, create the data packet, patch its fields and advance the
connection counters (note the source advances `next_seq` by the byte
length of the FULL payload while the packet carries the truncated
`payload[:payload_size]`, and `bytes_sent` adds the drawn size). -/
def tcpDataStep (c : Connection) (d : DataPacketOracle) :
    Option Packet × Connection :=
  let payload_size : Nat := tcpDataPayloadSize d
  let payload : List Char := tcpDataPayload c d
  match create_tcp_data_packet c.flow_id c.next_seq c.next_ack
      (payload.take payload_size) (decide (d.psh_draw > 0.7)) d.uuid with
  | some dp0 =>
    let dp := { dp0 with
      source_id := c.source_id,
      destination_id := c.destination_id,
      qos_class := c.qos_class, dscp := c.dscp,
      payload_entropy_q := d.entropy }
    let dp :=
      if c.pattern.protocolName = "HTTPS" ∨ c.pattern.protocolName = "TLS" then
        { dp with is_encrypted := true, encryption_strength := d.enc_strength }
      else dp
    (some dp,
     { c with next_seq := c.next_seq + (utf8Encode payload).length,
              packets_sent := c.packets_sent + 1,
              bytes_sent := c.bytes_sent + payload_size })
  | none => (none, c)

/-- The `for _ in range(packets_to_generate)` data loop (index `i` selects
the draws of the i-th iteration). -/
def tcpDataLoop (o : TcpTickOracle) : Nat → Nat → Connection → List Packet × Connection
  | _, 0, c => ([], c)
  | i, k + 1, c =>
    match tcpDataStep c (o.data i) with
    | (some p, c') =>
      let (ps, c'') := tcpDataLoop o (i + 1) k c'
      (p :: ps, c'')
    | (none, c') =>
      let (ps, c'') := tcpDataLoop o (i + 1) k c'
      (ps, c'')

/-- `TrafficGenerator._generate_tcp_packets`: one tick of the per-connection
TCP state machine, returning the emitted packets and the updated
connection.  The random-close check runs after the state-machine branch and
reads the (possibly just-updated) state. -/
def generate_tcp_packets (c0 : Connection) (time_delta : ℚ) (o : TcpTickOracle) :
    List Packet × Connection :=
  let packets_to_generate : ℤ :=
    stochasticCount (c0.pattern.packet_rate * time_delta) o.frac_draw
  let (packets, c) :=
    if c0.tcp_state = .closed then
      let syn0 := create_tcp_connection_syn c0.source_id c0.destination_id
        c0.source_port c0.dest_port o.syn_uuid o.syn_seq
      let syn_packet := { syn0 with
        source_ip := c0.source_ip,
        destination_ip := c0.dest_ip, qos_class := c0.qos_class,
        dscp := c0.dscp, flow_id := some c0.flow_id }
      ([syn_packet], { c0 with tcp_state := .synSent, next_seq := c0.next_seq + 1 })
    else if c0.tcp_state = .synSent then
      let syn_ack := mkPacket
        { packet_id := "tcp_sa_" ++ c0.conn_id.take 8, flow_id := some c0.flow_id,
          source_id := c0.destination_id, destination_id := c0.source_id,
          source_ip := c0.dest_ip, destination_ip := c0.source_ip,
          source_port := some c0.dest_port, destination_port := some c0.source_port,
          protocol := .tcp, tcp_flags := TCPFlags.mkSynAck,
          sequence_number := o.synack_seq, acknowledgment_number := c0.next_seq,
          qos_class := c0.qos_class, dscp := c0.dscp, direction := .inbound }
      ([syn_ack],
       { c0 with tcp_state := .established, next_ack := o.synack_seq + 1 })
    else if c0.tcp_state = .established then
      tcpDataLoop o 0 packets_to_generate.toNat c0
    else ([], c0)
  if c.tcp_state = .established ∧ o.fin_draw < 0.01 * time_delta then
    let fin_packet := mkPacket
      { packet_id := "tcp_fin_" ++ c.conn_id.take 8, flow_id := some c.flow_id,
        source_id := c.source_id, destination_id := c.destination_id,
        source_ip := c.source_ip, destination_ip := c.dest_ip,
        source_port := some c.source_port, destination_port := some c.dest_port,
        protocol := .tcp, tcp_flags := TCPFlags.mkFinAck,
        sequence_number := c.next_seq, acknowledgment_number := c.next_ack,
        qos_class := c.qos_class, dscp := c.dscp, direction := .outbound }
    (packets ++ [fin_packet],
     { c with tcp_state := .finWait, next_seq := c.next_seq + 1 })
  else (packets, c)

/-- Iterate the TCP tick over a list of `(dt, oracle)` pairs, collecting
each tick's emission. -/
def runTcpTicks (c : Connection) :
    List (ℚ × TcpTickOracle) → List (List Packet) × Connection
  | [] => ([], c)
  | (dt, o) :: rest =>
    let (ps, c') := generate_tcp_packets c dt o
    let (rest_ps, c'') := runTcpTicks c' rest
    (ps :: rest_ps, c'')

lemma postInit_spec (p : Packet) :
    ∃ f s, Packet.postInit p = { p with flow_id := f, payload_size := s } := by
  unfold Packet.postInit
  dsimp only
  split <;> split <;> exact ⟨_, _, rfl⟩

lemma postInit_tcp_flags (p : Packet) :
    (Packet.postInit p).tcp_flags = p.tcp_flags := by
  obtain ⟨f, s, h⟩ := postInit_spec p; rw [h]

lemma postInit_source_id (p : Packet) :
    (Packet.postInit p).source_id = p.source_id := by
  obtain ⟨f, s, h⟩ := postInit_spec p; rw [h]

lemma postInit_destination_id (p : Packet) :
    (Packet.postInit p).destination_id = p.destination_id := by
  obtain ⟨f, s, h⟩ := postInit_spec p; rw [h]

lemma postInit_is_malicious (p : Packet) :
    (Packet.postInit p).is_malicious = p.is_malicious := by
  obtain ⟨f, s, h⟩ := postInit_spec p; rw [h]

lemma postInit_threat_score (p : Packet) :
    (Packet.postInit p).threat_score = p.threat_score := by
  obtain ⟨f, s, h⟩ := postInit_spec p; rw [h]

lemma mkPacket_tcp_flags (p : Packet) : (mkPacket p).tcp_flags = p.tcp_flags :=
  postInit_tcp_flags p

lemma mkPacket_source_id (p : Packet) : (mkPacket p).source_id = p.source_id :=
  postInit_source_id p

lemma mkPacket_destination_id (p : Packet) :
    (mkPacket p).destination_id = p.destination_id :=
  postInit_destination_id p

lemma mkPacket_is_malicious (p : Packet) :
    (mkPacket p).is_malicious = p.is_malicious :=
  postInit_is_malicious p

lemma mkPacket_threat_score (p : Packet) :
    (mkPacket p).threat_score = p.threat_score :=
  postInit_threat_score p

lemma create_tcp_data_packet_flags (fid : String) (s a : Nat) (pl : List Char)
    (psh : Bool) (u : String) (p : Packet)
    (h : create_tcp_data_packet fid s a pl psh u = some p) :
    p.tcp_flags = { ack := true, psh := psh } := by
  unfold create_tcp_data_packet at h
  split at h
  · dsimp only at h
    split at h
    · exact absurd h (by simp)
    · split at h
      · exact absurd h (by simp)
      · split at h
        · exact absurd h (by simp)
        · rename_i protocol heq
          injection h with h
          subst h
          rw [show mkPacket = Packet.postInit from rfl, postInit_tcp_flags]
  · exact absurd h (by simp)

lemma tcpDataStep_syn (c : Connection) (d : DataPacketOracle) (p : Packet)
    (h : (tcpDataStep c d).1 = some p) : p.tcp_flags.syn = false := by
  unfold tcpDataStep at h
  dsimp only at h
  rcases hm : create_tcp_data_packet c.flow_id c.next_seq c.next_ack
      ((tcpDataPayload c d).take (tcpDataPayloadSize d))
      (decide (d.psh_draw > 0.7)) d.uuid with _ | dp0
  · rw [hm] at h; simp at h
  · rw [hm] at h
    dsimp only at h
    have hf := create_tcp_data_packet_flags _ _ _ _ _ _ _ hm
    split at h <;>
      · injection h with h
        subst h
        simp [hf]

lemma tcpDataStep_conn (c : Connection) (d : DataPacketOracle) :
    ((tcpDataStep c d).2.tcp_state = c.tcp_state ∧
     (tcpDataStep c d).2.next_ack = c.next_ack) ∧
    (tcpDataStep c d).2.conn_id = c.conn_id ∧
    (tcpDataStep c d).2.source_id = c.source_id ∧
    (tcpDataStep c d).2.destination_id = c.destination_id := by
  unfold tcpDataStep
  dsimp only
  rcases hm : create_tcp_data_packet c.flow_id c.next_seq c.next_ack
      ((tcpDataPayload c d).take (tcpDataPayloadSize d))
      (decide (d.psh_draw > 0.7)) d.uuid with _ | dp0 <;> simp

lemma tcpDataLoop_syn (o : TcpTickOracle) (k i : Nat) (c : Connection) :
    ∀ p ∈ (tcpDataLoop o i k c).1, p.tcp_flags.syn = false := by
  induction k generalizing i c with
  | zero => intro p hp; simp [tcpDataLoop] at hp
  | succ k ih =>
    intro p hp
    unfold tcpDataLoop at hp
    rcases hstep : tcpDataStep c (o.data i) with ⟨op, c'⟩
    rw [hstep] at hp
    cases op with
    | some q =>
      simp only at hp
      rcases List.mem_cons.mp hp with h | h
      · subst h
        exact tcpDataStep_syn c (o.data i) p (by rw [hstep])
      · exact ih (i + 1) c' p h
    | none =>
      simp only at hp
      exact ih (i + 1) c' p hp

lemma tcpDataLoop_state (o : TcpTickOracle) (k i : Nat) (c : Connection) :
    (tcpDataLoop o i k c).2.tcp_state = c.tcp_state := by
  induction k generalizing i c with
  | zero => simp [tcpDataLoop]
  | succ k ih =>
    unfold tcpDataLoop
    rcases hstep : tcpDataStep c (o.data i) with ⟨op, c'⟩
    have hc' : c'.tcp_state = c.tcp_state := by
      have := (tcpDataStep_conn c (o.data i)).1.1
      rw [hstep] at this; exact this
    cases op <;> simp only <;> rw [ih] <;> exact hc'

lemma generate_tcp_closed (c : Connection) (dt : ℚ) (o : TcpTickOracle)
    (h : c.tcp_state = .closed) :
    (∃ p, (generate_tcp_packets c dt o).1 = [p] ∧ p.tcp_flags = TCPFlags.mkSyn ∧
      p.source_id = c.source_id ∧ p.destination_id = c.destination_id) ∧
    (generate_tcp_packets c dt o).2 =
      { c with tcp_state := .synSent, next_seq := c.next_seq + 1 } := by
  unfold generate_tcp_packets
  rw [h]
  simp only [reduceIte, reduceCtorEq, false_and, if_false, and_true]
  exact ⟨_, rfl, postInit_tcp_flags _, postInit_source_id _, postInit_destination_id _⟩

lemma generate_tcp_synSent (c : Connection) (dt : ℚ) (o : TcpTickOracle)
    (h : c.tcp_state = .synSent) :
    (∃ sa rest, (generate_tcp_packets c dt o).1 = sa :: rest ∧
      sa.tcp_flags = TCPFlags.mkSynAck ∧ sa.source_id = c.destination_id ∧
      sa.destination_id = c.source_id ∧
      (∀ p ∈ rest, p.tcp_flags.syn = false)) ∧
    (generate_tcp_packets c dt o).2.next_ack = o.synack_seq + 1 ∧
    ((generate_tcp_packets c dt o).2.tcp_state = .established ∨
      (o.fin_draw < 0.01 * dt ∧
        (generate_tcp_packets c dt o).2.tcp_state = .finWait)) := by
  unfold generate_tcp_packets
  rw [h]
  simp only [reduceIte, reduceCtorEq, if_false]
  by_cases hfin : o.fin_draw < 0.01 * dt
  · simp only [hfin, and_true, reduceIte]
    refine ⟨⟨_, _, rfl, mkPacket_tcp_flags _, mkPacket_source_id _,
      mkPacket_destination_id _, ?_⟩, trivial, Or.inr trivial⟩
    intro p hp
    simp only [List.append_eq, List.nil_append, List.mem_singleton] at hp
    subst hp
    rw [mkPacket_tcp_flags]
    rfl
  · simp only [hfin, and_false, reduceIte]
    refine ⟨⟨_, [], rfl, mkPacket_tcp_flags _, mkPacket_source_id _,
      mkPacket_destination_id _, ?_⟩, trivial, Or.inl trivial⟩
    intro p hp
    exact absurd hp (by simp)

lemma generate_tcp_later (c : Connection) (dt : ℚ) (o : TcpTickOracle)
    (h : c.tcp_state = .established ∨ c.tcp_state = .finWait) :
    (∀ p ∈ (generate_tcp_packets c dt o).1, p.tcp_flags.syn = false) ∧
    ((generate_tcp_packets c dt o).2.tcp_state = .established ∨
      (generate_tcp_packets c dt o).2.tcp_state = .finWait) := by
  unfold generate_tcp_packets
  rcases h with h | h <;> rw [h]
  · simp only [reduceIte, reduceCtorEq, if_false]
    constructor
    · intro p hp
      split at hp
      · rcases List.mem_append.mp hp with h1 | h1
        · exact tcpDataLoop_syn o _ 0 c p h1
        · simp only [List.mem_singleton] at h1
          subst h1
          rw [mkPacket_tcp_flags]
          rfl
      · exact tcpDataLoop_syn o _ 0 c p hp
    · split
      · exact Or.inr rfl
      · rw [tcpDataLoop_state, h]
        exact Or.inl rfl
  · simp [h]

lemma runTcpTicks_no_syn (c : Connection)
    (h : c.tcp_state = .established ∨ c.tcp_state = .finWait)
    (ticks : List (ℚ × TcpTickOracle)) :
    ∀ ps ∈ (runTcpTicks c ticks).1, ∀ p ∈ ps, p.tcp_flags.syn = false := by
  induction ticks generalizing c with
  | nil => intro ps hps; simp [runTcpTicks] at hps
  | cons t rest ih =>
    intro ps hps p hp
    rcases t with ⟨dt, o⟩
    unfold runTcpTicks at hps
    dsimp only at hps
    rcases List.mem_cons.mp hps with h1 | h1
    · subst h1
      exact (generate_tcp_later c dt o h).1 p hp
    · exact ih (generate_tcp_packets c dt o).2 (generate_tcp_later c dt o h).2 ps h1 p hp

/-- C2 (amended): for a freshly created TCP connection stepped by the
traffic tick, the first packet ever emitted is a lone SYN from the source
(state CLOSED moves to SYN_SENT, source sequence advances by 1); the
second tick emits exactly one synthesized SYN-ACK attributed to the
destination, and the acknowledgment counter is initialized from the
synthesized sequence; the state moves to ESTABLISHED, except that the same
second tick may additionally emit a FIN-ACK and move on to FIN_WAIT when
the random-close draw fires (the close check runs after the branch and
reads the just-updated state); and no SYN or SYN-ACK packet is ever
emitted on any later tick. -/
theorem tcp_handshake_ordering (c : Connection) (h : c.tcp_state = .closed)
    (dt1 dt2 : ℚ) (o1 o2 : TcpTickOracle) (later : List (ℚ × TcpTickOracle)) :
    (∃ p, (generate_tcp_packets c dt1 o1).1 = [p] ∧
      p.tcp_flags = TCPFlags.mkSyn ∧ p.source_id = c.source_id) ∧
    (generate_tcp_packets c dt1 o1).2.tcp_state = .synSent ∧
    (generate_tcp_packets c dt1 o1).2.next_seq = c.next_seq + 1 ∧
    (∃ sa rest,
      (generate_tcp_packets (generate_tcp_packets c dt1 o1).2 dt2 o2).1 = sa :: rest ∧
      sa.tcp_flags = TCPFlags.mkSynAck ∧ sa.source_id = c.destination_id ∧
      ∀ p ∈ rest, p.tcp_flags.syn = false) ∧
    (generate_tcp_packets (generate_tcp_packets c dt1 o1).2 dt2 o2).2.next_ack =
      o2.synack_seq + 1 ∧
    ((generate_tcp_packets (generate_tcp_packets c dt1 o1).2 dt2 o2).2.tcp_state =
        .established ∨
      (o2.fin_draw < 0.01 * dt2 ∧
       (generate_tcp_packets (generate_tcp_packets c dt1 o1).2 dt2 o2).2.tcp_state =
         .finWait)) ∧
    (∀ ps ∈ (runTcpTicks
        (generate_tcp_packets (generate_tcp_packets c dt1 o1).2 dt2 o2).2 later).1,
      ∀ p ∈ ps, p.tcp_flags.syn = false) := by
  have h1 := generate_tcp_closed c dt1 o1 h
  have hc1state : (generate_tcp_packets c dt1 o1).2.tcp_state = .synSent := by
    rw [h1.2]
  have hdest : (generate_tcp_packets c dt1 o1).2.destination_id = c.destination_id := by
    rw [h1.2]
  have hseq : (generate_tcp_packets c dt1 o1).2.next_seq = c.next_seq + 1 := by
    rw [h1.2]
  have h2 := generate_tcp_synSent (generate_tcp_packets c dt1 o1).2 dt2 o2 hc1state
  obtain ⟨⟨sa, rest, hr, hflags, hsrc2, hdst2, hrest⟩, hack, hstate2⟩ := h2
  obtain ⟨p, hp1, hp2, hp3, _⟩ := h1.1
  refine ⟨⟨p, hp1, hp2, hp3⟩, hc1state, hseq,
    ⟨sa, rest, hr, hflags, ?_, hrest⟩, hack, hstate2, ?_⟩
  · rw [hsrc2, hdest]
  · have hst : (generate_tcp_packets (generate_tcp_packets c dt1 o1).2 dt2 o2).2.tcp_state =
        .established ∨
      (generate_tcp_packets (generate_tcp_packets c dt1 o1).2 dt2 o2).2.tcp_state = .finWait := by
      rcases hstate2 with h' | ⟨_, h'⟩
      · exact Or.inl h'
      · exact Or.inr h'
    exact runTcpTicks_no_syn _ hst later

lemma generate_tcp_synSent_finWait (c : Connection) (dt : ℚ) (o : TcpTickOracle)
    (h : c.tcp_state = .synSent) (hfin : o.fin_draw < 0.01 * dt) :
    (generate_tcp_packets c dt o).2.tcp_state = .finWait := by
  unfold generate_tcp_packets
  rw [h]
  simp only [reduceIte, reduceCtorEq, if_false, hfin, and_true]

/-- The concrete fresh connection used by the C2 counterexample and
witness (a TCP file-transfer connection between nodes A and B). -/
def cexConn : Connection :=
  Connection.init "conn_A_B_tcp_100" "A" "B" "10.0.0.1" "10.0.0.2" .tcp
    50000 80 .fileTransfer {}

/-- C2 counterexample: stepping a fresh connection twice with the
random-close draw firing on the second tick leaves the connection in
FIN_WAIT, not ESTABLISHED, refuting the claim that the second tick's state
is ESTABLISHED. -/
theorem tcp_second_tick_counterexample :
    cexConn.tcp_state = .closed ∧
    (generate_tcp_packets (generate_tcp_packets cexConn 1 {}).2 1
        { fin_draw := 0 }).2.tcp_state = .finWait ∧
    ¬ (generate_tcp_packets (generate_tcp_packets cexConn 1 {}).2 1
        { fin_draw := 0 }).2.tcp_state = .established := by
  have hfw : (generate_tcp_packets (generate_tcp_packets cexConn 1 {}).2 1
      { fin_draw := 0 }).2.tcp_state = .finWait :=
    generate_tcp_synSent_finWait _ 1 _ (by decide) (by norm_num)
  exact ⟨rfl, hfw, by rw [hfw]; simp⟩

/-- Witness for C2 at a concrete fresh connection. -/
theorem tcp_handshake_ordering_witness :
    cexConn.tcp_state = .closed ∧
    (∃ p, (generate_tcp_packets cexConn 1 {}).1 = [p] ∧
      p.tcp_flags = TCPFlags.mkSyn ∧ p.source_id = cexConn.source_id) ∧
    (generate_tcp_packets cexConn 1 {}).2.tcp_state = .synSent :=
  ⟨rfl, (tcp_handshake_ordering cexConn rfl 1 1 {} {} []).1,
    (tcp_handshake_ordering cexConn rfl 1 1 {} {} []).2.1⟩

/-! ## Attack engine (`src/backend/simulation/attack_generator.py`). -/

/-- Zero-padded decimal rendering, Python `f"{n:06d}"`. -/
def padNum (width n : Nat) : String :=
  let s := toString n
  String.mk (List.replicate (width - s.length) '0') ++ s

/-- Hex rendering of `random.getrandbits(128)` under `f"{bits:032x}"`. -/
def hexPad32 (n : Nat) : String :=
  let s := String.mk (Nat.toDigits 16 n)
  String.mk (List.replicate (32 - s.length) '0') ++ s

/-- The `self.parameters` dict of an `Attack` (base keys plus the
category-specific keys; absent keys keep their base/default value, matching
`dict.get` with the defaults the code uses). -/
structure AttackParams where
  packet_rate : ℚ := 0
  packet_size : Nat := 0
  target_ports : List Nat := []
  scan_range : Nat × Nat := (1, 1024)
  flood_duration : ℚ := 0
  stealth_mode : Bool := false
  amplification_factor : ℚ := 1
  spread_rate : ℚ := 0
  encrypted_payload : Bool := false
  credentials_tried : Nat := 0
  payload_size : Nat := 0
  sql_patterns : List String := []
deriving DecidableEq

/-- Random draws consumed by `Attack.__init__` /
`_init_attack_parameters`, plus the construction wall-clock time. -/
structure AttackInitOracle where
  stealth_draw : ℚ := 1   -- stealth_mode = random.random() > 0.3
  ddos_size : Nat := 500  -- random.randint(500, 1500)
  flood_dur : Nat := 30   -- random.randint(30, 300)
  amp_draw : ℚ := 1       -- random.uniform(1.0, 50.0)
  mal_size : Nat := 1000  -- random.randint(1000, 10000)
  enc_draw : ℚ := 1       -- encrypted_payload = random.random() > 0.5
  brute_size : Nat := 100 -- random.randint(100, 500)
  sql_size : Nat := 200   -- random.randint(200, 2000)
  now : ℚ := 0            -- datetime.now() at construction

/-- The fixed `sql_patterns` list (apostrophes written as `\x27`). -/
def sqlPatternsList : List String :=
  ["\x27 OR \x271\x27=\x271",
   "\x27; DROP TABLE users; --",
   "UNION SELECT NULL, password FROM users",
   "<script>alert(\x27xss\x27)</script>"]

/-- `Attack._init_attack_parameters`. -/
def init_attack_parameters (t : AttackType) (intensity : ℚ)
    (o : AttackInitOracle) : AttackParams :=
  match t with
  | .portScan =>
    { packet_rate := 50 * intensity, packet_size := 100,
      scan_range := (1, if intensity < 0.5 then 1024 else 65535),
      stealth_mode := o.stealth_draw > 0.3 }
  | .ddos =>
    { packet_rate := 1000 * intensity, packet_size := o.ddos_size,
      flood_duration := o.flood_dur, amplification_factor := o.amp_draw }
  | .malwareSpread =>
    { packet_rate := 10 * intensity, packet_size := o.mal_size,
      spread_rate := 0.3 * intensity, encrypted_payload := o.enc_draw > 0.5 }
  | .bruteForce =>
    { packet_rate := 20 * intensity, packet_size := o.brute_size,
      target_ports := [22, 23, 3389, 5900], credentials_tried := 0 }
  | .sqlInjection =>
    { packet_rate := 5 * intensity, payload_size := o.sql_size,
      sql_patterns := sqlPatternsList }
  | _ => {}

/-- `Attack` object state. -/
structure Attack where
  attack_id : String
  attack_type : AttackType
  source_id : String
  target_id : String
  intensity : ℚ
  start_time : ℚ
  is_active : Bool
  detected : Bool
  stopped : Bool
  packets_sent : Nat
  bytes_sent : Nat
  damage_caused : ℚ
  detection_time : Option ℚ
  parameters : AttackParams
deriving DecidableEq

/-- `Attack.__init__`. -/
def Attack.init (attack_id : String) (attack_type : AttackType)
    (source_id target_id : String) (intensity : ℚ)
    (o : AttackInitOracle) : Attack :=
  { attack_id, attack_type, source_id, target_id, intensity,
    start_time := o.now, is_active := true, detected := false, stopped := false,
    packets_sent := 0, bytes_sent := 0, damage_caused := 0,
    detection_time := none,
    parameters := init_attack_parameters attack_type intensity o }

/-- `Attack.stop`. -/
def Attack.stop (a : Attack) : Attack :=
  { a with is_active := false, stopped := true }

/-- Random draws consumed inside `Packet.create_attack_packet`
(`src/simulation/packet.py`). -/
structure GenericAttackOracle where
  uuid : String := ""
  src_port : Nat := 1024     -- random.randint(1024, 65535)
  dst_port : Nat := 1        -- random.randint(1, 1024)
  proto_udp : Bool := false  -- random.choice([TCP, UDP])
  flag_draw : ℚ := 1         -- random.random() > 0.5 for the SYN flag
  size : Nat := 40           -- random.randint size draws
  entropy : ℚ := 0.5         -- random.uniform entropy draws
  dst_choice : Nat := 0      -- random.choice of the target-port list
  pad : Nat := 10            -- random.randint(10, 100) payload repeats

/-- `Packet.create_attack_packet` classmethod from
`src/simulation/packet.py` (branches on the attack-type string; the
engine's generic fallback reaches the final branch). -/
def create_attack_packet (source destination : String) (attack_type : String)
    (threat_score : ℚ) (o : GenericAttackOracle) : Packet :=
  if attack_type = "port_scan" then
    mkPacket
      { packet_id := "atk_" ++ o.uuid, source_id := source,
        destination_id := destination, source_port := some o.src_port,
        destination_port := some o.dst_port,
        protocol := if o.proto_udp then .udp else .tcp,
        tcp_flags := if o.flag_draw > 0.5 then TCPFlags.mkSyn else {},
        payload := "PORT_SCAN".toList, payload_size := o.size,
        payload_entropy_q := o.entropy, is_malicious := true,
        threat_score := threat_score, requires_ack := false,
        direction := .outbound }
  else if attack_type = "ddos" then
    mkPacket
      { packet_id := "ddos_" ++ o.uuid, source_id := source,
        destination_id := destination, source_port := some o.src_port,
        destination_port := some ([80, 443, 53].getD (o.dst_choice % 3) 80),
        protocol := .udp,
        payload := (List.replicate o.pad "DDoS".toList).flatten,
        payload_size := o.size, payload_entropy_q := o.entropy,
        is_malicious := true, threat_score := threat_score,
        requires_ack := false, direction := .outbound, dscp := 0 }
  else if attack_type = "brute_force" then
    mkPacket
      { packet_id := "brute_" ++ o.uuid, source_id := source,
        destination_id := destination, source_port := some o.src_port,
        destination_port := some ([22, 23, 3389].getD (o.dst_choice % 3) 22),
        protocol := .tcp, tcp_flags := { ack := true, psh := true },
        payload := "LOGIN_ATTEMPT".toList, payload_size := o.size,
        payload_entropy_q := o.entropy, is_malicious := true,
        threat_score := threat_score, direction := .outbound }
  else
    mkPacket
      { packet_id := "atk_" ++ o.uuid, source_id := source,
        destination_id := destination, packet_type := .attack,
        payload := ("Attack: " ++ attack_type).toList, protocol := .tcp,
        is_malicious := true, threat_score := threat_score,
        requires_ack := false, direction := .outbound }

/-- Random draws consumed by one `_create_attack_packet` call. -/
structure AttackPacketOracle where
  stealth_draw : ℚ := 1      -- port scan: random.random() > 0.7
  scan_choice : Nat := 0     -- random.choice over the four scan styles
  target_port : Nat := 1     -- random.randint over the scan range
  src_port : Nat := 49152    -- ephemeral source-port draws
  ddos_choice : Nat := 0     -- random.choice over the four DDoS styles
  ddos_pad : Nat := 100      -- random.randint(100, 1000) payload repeats
  dest_choice : Nat := 0     -- random.choice over the fixed port lists
  mal_choice : Nat := 0      -- random.choice over the five malware types
  mal_bits : Nat := 0        -- random.getrandbits(128)
  enc_strength : Nat := 70   -- random.randint(70, 95)
  cred_choice : Nat := 0     -- random.choice over the credential list
  cred_num1 : Nat := 1       -- random.randint(1, 999) in admin:admin{n}
  cred_num2 : Nat := 1       -- random.randint(1, 999) in root:password{n}
  sql_choice : Nat := 0      -- random.choice over sql_patterns
  entropy : ℚ := 0.5         -- random.uniform entropy draw
  gen : GenericAttackOracle := {}

/-- `Attack._create_port_scan_packet`. -/
def create_port_scan_packet (a : Attack) (o : AttackPacketOracle) : Packet :=
  let stealth := a.parameters.stealth_mode
  let scan_types : List (TCPFlags × Bool) :=
    [(TCPFlags.mkSyn, true), (TCPFlags.mkAck, false),
     ({ fin := true }, false), ({}, false)]
  let (flags, requires_ack) :=
    if stealth ∧ o.stealth_draw > 0.7 then (TCPFlags.mkSyn, true)
    else scan_types.getD (o.scan_choice % 4) (TCPFlags.mkSyn, true)
  let target_port := o.target_port
  mkPacket
    { packet_id := "scan_" ++ a.attack_id ++ "_" ++ padNum 6 a.packets_sent,
      source_id := a.source_id, destination_id := a.target_id,
      source_port := some o.src_port, destination_port := some target_port,
      protocol := .tcp, packet_type := .attack, tcp_flags := flags,
      payload := ("Port scan: " ++ toString target_port).toList,
      payload_size := a.parameters.packet_size, is_malicious := true,
      threat_score := 0.6 + 0.4 * a.intensity, requires_ack := requires_ack,
      direction := .outbound, payload_entropy_q := o.entropy }

/-- `Attack._create_ddos_packet` (the drawn `tcp_flags_int` of the chosen
style is computed but never passed to the `Packet`, so all DDoS packets
carry default flags). -/
def create_ddos_packet (a : Attack) (o : AttackPacketOracle) : Packet :=
  let ddos_types : List (String × Protocol × Bool) :=
    [("UDP flood", .udp, false), ("ICMP flood", .icmp, false),
     ("SYN flood", .tcp, true), ("HTTP flood", .http, true)]
  let (attack_name, protocol, has_payload) :=
    ddos_types.getD (o.ddos_choice % 4) ("UDP flood", .udp, false)
  let payload : List Char :=
    if has_payload then
      ("DDoS: " ++ attack_name ++ " ").toList ++ List.replicate o.ddos_pad 'X'
    else []
  let payload_size :=
    if has_payload then (utf8Encode payload).length else a.parameters.packet_size
  mkPacket
    { packet_id := "ddos_" ++ a.attack_id ++ "_" ++ padNum 6 a.packets_sent,
      source_id := a.source_id, destination_id := a.target_id,
      source_port := some o.src_port,
      destination_port := some ([80, 443, 53, 123].getD (o.dest_choice % 4) 80),
      protocol := protocol, packet_type := .attack, payload := payload,
      payload_size := payload_size, is_malicious := true,
      threat_score := 0.8 + 0.2 * a.intensity, requires_ack := false,
      direction := .outbound, payload_entropy_q := o.entropy }

/-- `Attack._create_malware_packet`. -/
def create_malware_packet (a : Attack) (o : AttackPacketOracle) : Packet :=
  let encrypted := a.parameters.encrypted_payload
  let malware_types : List String :=
    ["Trojan-Dropper", "Ransomware-Encryptor", "Botnet-C2",
     "Keylogger-Exfil", "Worm-Propagate"]
  let malware_type := malware_types.getD (o.mal_choice % 5) "Trojan-Dropper"
  mkPacket
    { packet_id := "mal_" ++ a.attack_id ++ "_" ++ padNum 6 a.packets_sent,
      source_id := a.source_id, destination_id := a.target_id,
      source_port := some o.src_port,
      destination_port := some ([445, 139, 3389, 5900].getD (o.dest_choice % 4) 445),
      protocol := .tcp, packet_type := .attack,
      tcp_flags := { ack := true, psh := true },
      payload := ("MALWARE:" ++ malware_type ++ ":" ++ hexPad32 o.mal_bits).toList,
      payload_size := a.parameters.packet_size, is_malicious := true,
      threat_score := 0.9, is_encrypted := encrypted,
      encryption_strength := if encrypted then o.enc_strength else 0,
      direction := .outbound, payload_entropy_q := o.entropy }

/-- `Attack._create_brute_force_packet`: also increments the
`credentials_tried` counter on the attack's parameter dict. -/
def create_brute_force_packet (a : Attack) (o : AttackPacketOracle) :
    Packet × Attack :=
  let target_port := a.parameters.target_ports.getD
    (o.dest_choice % a.parameters.target_ports.length) 22
  let a := { a with parameters :=
    { a.parameters with credentials_tried := a.parameters.credentials_tried + 1 } }
  let credentials : List String :=
    ["admin:admin" ++ toString o.cred_num1,
     "root:password" ++ toString o.cred_num2,
     "user:123456", "administrator:qwerty", "guest:guest"]
  (mkPacket
    { packet_id := "brute_" ++ a.attack_id ++ "_" ++ padNum 6 a.packets_sent,
      source_id := a.source_id, destination_id := a.target_id,
      source_port := some o.src_port, destination_port := some target_port,
      protocol := .tcp, packet_type := .attack,
      tcp_flags := { ack := true, psh := true },
      payload := ("LOGIN:" ++ credentials.getD (o.cred_choice % 5) "").toList,
      payload_size := a.parameters.packet_size, is_malicious := true,
      threat_score := 0.7, direction := .outbound,
      payload_entropy_q := o.entropy }, a)

/-- `Attack._create_sql_injection_packet`. -/
def create_sql_injection_packet (a : Attack) (o : AttackPacketOracle) : Packet :=
  let sql_payload := a.parameters.sql_patterns.getD
    (o.sql_choice % a.parameters.sql_patterns.length) ""
  mkPacket
    { packet_id := "sql_" ++ a.attack_id ++ "_" ++ padNum 6 a.packets_sent,
      source_id := a.source_id, destination_id := a.target_id,
      source_port := some o.src_port, destination_port := some 80,
      protocol := .http, packet_type := .attack,
      payload := ("GET /login.php?user=" ++ sql_payload ++ " HTTP/1.1").toList,
      payload_size := a.parameters.payload_size, is_malicious := true,
      threat_score := 0.8, direction := .outbound,
      payload_entropy_q := o.entropy }

/-- `Attack._create_generic_attack_packet`. -/
def create_generic_attack_packet (a : Attack) (o : AttackPacketOracle) : Packet :=
  create_attack_packet a.source_id a.target_id a.attack_type.value
    (0.5 + 0.5 * a.intensity) o.gen

/-- `Attack._create_attack_packet`: dispatch on the attack category.  The
`try/except` wrapper returns `None` on an exception; none of the modeled
branches can raise, so every branch yields `some`.  Brute force mutates the
attack's parameter dict. -/
def createAttackPacket (a : Attack) (o : AttackPacketOracle) :
    Option Packet × Attack :=
  match a.attack_type with
  | .portScan => (some (create_port_scan_packet a o), a)
  | .ddos => (some (create_ddos_packet a o), a)
  | .malwareSpread => (some (create_malware_packet a o), a)
  | .bruteForce =>
    let (p, a') := create_brute_force_packet a o
    (some p, a')
  | .sqlInjection => (some (create_sql_injection_packet a o), a)
  | _ => (some (create_generic_attack_packet a o), a)

/-- Random draws consumed by one `Attack.generate_packets` tick. -/
structure AttackTickOracle where
  frac_draw : ℚ := 1                          -- stochastic rounding
  pkt : Nat → AttackPacketOracle := fun _ => {}
  brute_draw : ℚ := 1                         -- brute-force success roll
  now : ℚ := 0                                -- datetime.now() during the state update
  detect_draw : ℚ := 1                        -- detection roll

/-- The `for _ in range(packets_to_generate)` loop of
`Attack.generate_packets`: create packets, threading the per-packet
statistics updates through the attack. -/
def attackPacketLoop (o : AttackTickOracle) : Nat → Nat → Attack → List Packet × Attack
  | _, 0, a => ([], a)
  | i, k + 1, a =>
    match createAttackPacket a (o.pkt i) with
    | (some p, a') =>
      let a'' := { a' with packets_sent := a'.packets_sent + 1,
                           bytes_sent := a'.bytes_sent + p.payload_size }
      let (ps, af) := attackPacketLoop o (i + 1) k a''
      (p :: ps, af)
    | (none, a') =>
      let (ps, af) := attackPacketLoop o (i + 1) k a'
      (ps, af)

/-- The `base_damage` computed by `_update_attack_state` (per-category
damage-per-minute scaled by intensity and `dt`; brute force can add the
0.5 successful-login bonus; categories without a case accrue 0). -/
def attackBaseDamage (a0 : Attack) (time_delta : ℚ) (o : AttackTickOracle) : ℚ :=
  match a0.attack_type with
  | .ddos => 0.8 * a0.intensity * time_delta / 60
  | .malwareSpread => 0.3 * a0.intensity * time_delta / 60
  | .portScan => 0.1 * a0.intensity * time_delta / 60
  | .bruteForce =>
    let b := 0.2 * a0.intensity * time_delta / 60
    if a0.parameters.credentials_tried > 100 then
      let success_chance : ℚ :=
        min 0.3 ((a0.parameters.credentials_tried : ℚ) / 1000)
      if o.brute_draw < success_chance then b + 0.5 else b
    else b
  | _ => 0

/-- `Attack._update_attack_state`: damage accrual (clamped at 100), the
DDoS flood-duration self-stop, and the detection roll. -/
def update_attack_state (a0 : Attack) (time_delta : ℚ) (o : AttackTickOracle) : Attack :=
  let base_damage := attackBaseDamage a0 time_delta o
  let a1 := { a0 with damage_caused := min 100 (a0.damage_caused + base_damage) }
  let a2 :=
    if a1.attack_type = .ddos then
      if o.now - a1.start_time > a1.parameters.flood_duration then a1.stop else a1
    else a1
  if a2.detected = false then
    if o.detect_draw < 0.01 * a2.intensity * time_delta then
      { a2 with detected := true, detection_time := some o.now }
    else a2
  else a2

/-- `Attack.generate_packets`: one attack tick. -/
def Attack.generate_packets (a : Attack) (time_delta : ℚ) (o : AttackTickOracle) :
    List Packet × Attack :=
  if a.is_active = false ∨ a.stopped then ([], a)
  else
    let packets_to_generate :=
      (stochasticCount (a.parameters.packet_rate * time_delta) o.frac_draw).toNat
    let (packets, a') := attackPacketLoop o 0 packets_to_generate a
    (packets, update_attack_state a' time_delta o)

lemma attackBaseDamage_nonneg (a : Attack) (dt : ℚ) (o : AttackTickOracle)
    (hi : 0 ≤ a.intensity) (hdt : 0 ≤ dt) : 0 ≤ attackBaseDamage a dt o := by
  unfold attackBaseDamage
  have h08 : 0 ≤ (0.8 : ℚ) * a.intensity * dt / 60 := by positivity
  have h03 : 0 ≤ (0.3 : ℚ) * a.intensity * dt / 60 := by positivity
  have h01 : 0 ≤ (0.1 : ℚ) * a.intensity * dt / 60 := by positivity
  have h02 : 0 ≤ (0.2 : ℚ) * a.intensity * dt / 60 := by positivity
  cases a.attack_type <;> simp only <;>
    try first | exact h08 | exact h03 | exact h01 | norm_num
  split
  · split <;> linarith
  · linarith

lemma update_attack_state_damage_eq (a : Attack) (dt : ℚ) (o : AttackTickOracle) :
    (update_attack_state a dt o).damage_caused =
      min 100 (a.damage_caused + attackBaseDamage a dt o) := by
  unfold update_attack_state Attack.stop
  dsimp only
  repeat' split
  all_goals rfl

lemma update_attack_state_damage (a : Attack) (dt : ℚ) (o : AttackTickOracle)
    (hi : 0 ≤ a.intensity) (hdt : 0 ≤ dt)
    (hd0 : 0 ≤ a.damage_caused) (hd1 : a.damage_caused ≤ 100) :
    a.damage_caused ≤ (update_attack_state a dt o).damage_caused ∧
    0 ≤ (update_attack_state a dt o).damage_caused ∧
    (update_attack_state a dt o).damage_caused ≤ 100 := by
  rw [update_attack_state_damage_eq]
  have hb := attackBaseDamage_nonneg a dt o hi hdt
  refine ⟨le_min hd1 (by linarith), le_min (by norm_num) (by linarith), min_le_left _ _⟩

lemma createAttackPacket_isSome (a : Attack) (o : AttackPacketOracle) :
    (createAttackPacket a o).1.isSome := by
  unfold createAttackPacket create_brute_force_packet
  cases h : a.attack_type <;> simp [h]

lemma createAttackPacket_state (a : Attack) (o : AttackPacketOracle) :
    ((createAttackPacket a o).2.damage_caused = a.damage_caused ∧
     (createAttackPacket a o).2.intensity = a.intensity ∧
     (createAttackPacket a o).2.attack_type = a.attack_type) ∧
    ((createAttackPacket a o).2.is_active = a.is_active ∧
     (createAttackPacket a o).2.stopped = a.stopped ∧
     (createAttackPacket a o).2.detected = a.detected) ∧
    (createAttackPacket a o).2.start_time = a.start_time ∧
    (createAttackPacket a o).2.parameters.packet_rate = a.parameters.packet_rate ∧
    (createAttackPacket a o).2.parameters.flood_duration =
      a.parameters.flood_duration := by
  unfold createAttackPacket create_brute_force_packet
  cases h : a.attack_type <;> simp [h]

lemma attackPacketLoop_length (o : AttackTickOracle) (k i : Nat) (a : Attack) :
    (attackPacketLoop o i k a).1.length = k := by
  induction k generalizing i a with
  | zero => simp [attackPacketLoop]
  | succ k ih =>
    unfold attackPacketLoop
    rcases h : createAttackPacket a (o.pkt i) with ⟨op, a'⟩
    cases op with
    | none =>
      have hs := createAttackPacket_isSome a (o.pkt i)
      rw [h] at hs
      simp at hs
    | some p =>
      simp only
      rw [List.length_cons, ih]

lemma attackPacketLoop_state (o : AttackTickOracle) (k i : Nat) (a : Attack) :
    ((attackPacketLoop o i k a).2.damage_caused = a.damage_caused ∧
     (attackPacketLoop o i k a).2.intensity = a.intensity ∧
     (attackPacketLoop o i k a).2.attack_type = a.attack_type) ∧
    ((attackPacketLoop o i k a).2.is_active = a.is_active ∧
     (attackPacketLoop o i k a).2.stopped = a.stopped ∧
     (attackPacketLoop o i k a).2.detected = a.detected) ∧
    (attackPacketLoop o i k a).2.start_time = a.start_time ∧
    (attackPacketLoop o i k a).2.parameters.packet_rate = a.parameters.packet_rate ∧
    (attackPacketLoop o i k a).2.parameters.flood_duration =
      a.parameters.flood_duration := by
  induction k generalizing i a with
  | zero => simp [attackPacketLoop]
  | succ k ih =>
    unfold attackPacketLoop
    rcases h : createAttackPacket a (o.pkt i) with ⟨op, a'⟩
    have hstate := createAttackPacket_state a (o.pkt i)
    rw [h] at hstate
    cases op with
    | none =>
      have hs := createAttackPacket_isSome a (o.pkt i)
      rw [h] at hs
      simp at hs
    | some p =>
      simp only
      obtain ⟨⟨e1, e2, e3⟩, ⟨e4, e5, e6⟩, e7, e8, e9⟩ := hstate
      have ih' := ih (i + 1)
        { a' with packets_sent := a'.packets_sent + 1,
                  bytes_sent := a'.bytes_sent + p.payload_size }
      simp only at ih'
      obtain ⟨⟨f1, f2, f3⟩, ⟨f4, f5, f6⟩, f7, f8, f9⟩ := ih'
      exact ⟨⟨f1.trans e1, f2.trans e2, f3.trans e3⟩,
        ⟨f4.trans e4, f5.trans e5, f6.trans e6⟩,
        f7.trans e7, f8.trans e8, f9.trans e9⟩

/-- C3: on any attack tick with non-negative intensity and elapsed time,
`damage_caused` is non-decreasing and stays within [0,100]; a tick of a
stopped attack is a complete no-op (so damage is frozen once stopped), and
`stop` itself leaves the damage untouched. -/
theorem damage_monotone_bounded_frozen (a : Attack) (dt : ℚ) (o : AttackTickOracle)
    (hi : 0 ≤ a.intensity) (hdt : 0 ≤ dt)
    (hd0 : 0 ≤ a.damage_caused) (hd1 : a.damage_caused ≤ 100) :
    (a.damage_caused ≤ (Attack.generate_packets a dt o).2.damage_caused ∧
     0 ≤ (Attack.generate_packets a dt o).2.damage_caused ∧
     (Attack.generate_packets a dt o).2.damage_caused ≤ 100) ∧
    (a.stopped = true → Attack.generate_packets a dt o = ([], a)) ∧
    (Attack.stop a).damage_caused = a.damage_caused := by
  have hfrozen : a.stopped = true → Attack.generate_packets a dt o = ([], a) := by
    intro hs
    unfold Attack.generate_packets
    rw [hs]
    simp
  refine ⟨?_, hfrozen, rfl⟩
  unfold Attack.generate_packets
  split
  · exact ⟨le_refl _, hd0, hd1⟩
  · dsimp only
    have hstate := attackPacketLoop_state o
      (stochasticCount (a.parameters.packet_rate * dt) o.frac_draw).toNat 0 a
    obtain ⟨⟨e1, e2, _⟩, _, _⟩ := hstate
    have hupd := update_attack_state_damage
      (attackPacketLoop o 0
        (stochasticCount (a.parameters.packet_rate * dt) o.frac_draw).toNat a).2
      dt o (by rw [e2]; exact hi) hdt (by rw [e1]; exact hd0) (by rw [e1]; exact hd1)
    rw [e1] at hupd
    exact hupd

/-- Witness for C3 at a concrete active attack one tick in. -/
theorem damage_monotone_bounded_frozen_witness :
    (0 : ℚ) ≤ (Attack.init "atk_000000" .portScan "A" "B" 0.7 {}).intensity ∧
    (Attack.init "atk_000000" .portScan "A" "B" 0.7 {}).damage_caused ≤ 100 ∧
    (Attack.init "atk_000000" .portScan "A" "B" 0.7 {}).damage_caused ≤
      ((Attack.init "atk_000000" .portScan "A" "B" 0.7 {}).generate_packets 1 {}).2.damage_caused ∧
    ((Attack.init "atk_000000" .portScan "A" "B" 0.7 {}).generate_packets 1 {}).2.damage_caused ≤ 100 :=
  ⟨by norm_num [Attack.init], by norm_num [Attack.init],
   (damage_monotone_bounded_frozen (Attack.init "atk_000000" .portScan "A" "B" 0.7 {})
      1 {} (by norm_num [Attack.init]) (by norm_num)
      (by norm_num [Attack.init]) (by norm_num [Attack.init])).1.1,
   (damage_monotone_bounded_frozen (Attack.init "atk_000000" .portScan "A" "B" 0.7 {})
      1 {} (by norm_num [Attack.init]) (by norm_num)
      (by norm_num [Attack.init]) (by norm_num [Attack.init])).1.2.2⟩

/-- `rate(category)`: the per-category rate scalar of
`_init_attack_parameters` (categories without a template keep rate 0). -/
def attackCategoryRate : AttackType → ℚ
  | .portScan => 50 | .ddos => 1000 | .malwareSpread => 10
  | .bruteForce => 20 | .sqlInjection => 5 | _ => 0

lemma generate_packets_length (a : Attack) (dt : ℚ) (o : AttackTickOracle)
    (hactive : a.is_active = true) (hstop : a.stopped = false) :
    (Attack.generate_packets a dt o).1.length =
      (stochasticCount (a.parameters.packet_rate * dt) o.frac_draw).toNat := by
  unfold Attack.generate_packets
  rw [hactive, hstop]
  simp only [Bool.true_eq_false, Bool.false_eq_true, false_or, if_false]
  exact attackPacketLoop_length o _ 0 a

lemma stochasticCount_toNat (exp u : ℚ) (hexp : 0 ≤ exp) :
    (stochasticCount exp u).toNat =
      ⌊exp⌋.toNat + (if u < exp - ⌊exp⌋ then 1 else 0) := by
  unfold stochasticCount pyInt
  rw [if_pos hexp]
  have h0 : 0 ≤ ⌊exp⌋ := Int.floor_nonneg.mpr hexp
  dsimp only
  split <;> omega

/-- C8: on each tick of an active, non-stopped attack the emitted packet
count is `floor(packet_rate × dt)` or that plus one, the extra packet
occurring exactly when the rounding draw falls below the fractional
remainder; `packet_rate` as initialized is `rate(category) × intensity`;
and one PORT_SCAN tick at intensity 1 with `dt = 10` emits exactly
`rate(PORT_SCAN) × 10 = 500` packets (within ±1 of 500). -/
theorem attack_packet_count (a : Attack) (dt : ℚ) (o : AttackTickOracle)
    (hactive : a.is_active = true) (hstop : a.stopped = false)
    (hexp : 0 ≤ a.parameters.packet_rate * dt) (_hu : 0 ≤ o.frac_draw) :
    ((Attack.generate_packets a dt o).1.length =
        (⌊a.parameters.packet_rate * dt⌋).toNat ∨
     (Attack.generate_packets a dt o).1.length =
        (⌊a.parameters.packet_rate * dt⌋).toNat + 1) ∧
    ((Attack.generate_packets a dt o).1.length =
        (⌊a.parameters.packet_rate * dt⌋).toNat + 1 ↔
      o.frac_draw < a.parameters.packet_rate * dt - ⌊a.parameters.packet_rate * dt⌋) ∧
    (∀ t i id src tgt io,
      (Attack.init id t src tgt i io).parameters.packet_rate =
        attackCategoryRate t * i) ∧
    (∀ id src tgt io o2, 0 ≤ o2.frac_draw →
      ((Attack.init id .portScan src tgt 1 io).generate_packets 10 o2).1.length = 500) := by
  have hlen := generate_packets_length a dt o hactive hstop
  rw [hlen, stochasticCount_toNat _ _ hexp]
  refine ⟨?_, ?_, ?_, ?_⟩
  · split
    · exact Or.inr rfl
    · exact Or.inl (by omega)
  · by_cases hcond : o.frac_draw <
        a.parameters.packet_rate * dt - ⌊a.parameters.packet_rate * dt⌋
    · rw [if_pos hcond]
      exact iff_of_true rfl hcond
    · rw [if_neg hcond]
      exact iff_of_false (by omega) hcond
  · intro t i id src tgt io
    cases t <;>
      simp [Attack.init, init_attack_parameters, attackCategoryRate]
  · intro id src tgt io o2 hu2
    have h1 : (Attack.init id .portScan src tgt 1 io).is_active = true := rfl
    have h2 : (Attack.init id .portScan src tgt 1 io).stopped = false := rfl
    have h3 : (Attack.init id .portScan src tgt 1 io).parameters.packet_rate = 50 := by
      norm_num [Attack.init, init_attack_parameters]
    rw [generate_packets_length _ 10 o2 h1 h2, h3]
    rw [show (50 : ℚ) * 10 = 500 by norm_num]
    rw [stochasticCount_toNat 500 o2.frac_draw (by norm_num)]
    rw [show ⌊(500:ℚ)⌋ = 500 by norm_num]
    rw [if_neg (by push_neg; norm_num; linarith)]
    simp

/-- Witness for C8 at a concrete active attack. -/
theorem attack_packet_count_witness :
    ((Attack.init "atk_000000" .portScan "A" "B" 1 {}).generate_packets 10
      { frac_draw := 1/2 }).1.length = 500 :=
  (attack_packet_count (Attack.init "atk_000000" .portScan "A" "B" 1 {}) 10
      { frac_draw := 1/2 } rfl rfl
      (by norm_num [Attack.init, init_attack_parameters]) (by norm_num)).2.2.2
    "atk_000000" "A" "B" {} { frac_draw := 1/2 } (by norm_num)

lemma create_attack_packet_malicious (src dst s : String) (ts : ℚ)
    (o : GenericAttackOracle) (hts : 0 < ts) :
    (create_attack_packet src dst s ts o).is_malicious = true ∧
    0 < (create_attack_packet src dst s ts o).threat_score := by
  unfold create_attack_packet
  split
  · rw [mkPacket_is_malicious, mkPacket_threat_score]
    exact ⟨rfl, hts⟩
  · split
    · rw [mkPacket_is_malicious, mkPacket_threat_score]
      exact ⟨rfl, hts⟩
    · split
      · rw [mkPacket_is_malicious, mkPacket_threat_score]
        exact ⟨rfl, hts⟩
      · rw [mkPacket_is_malicious, mkPacket_threat_score]
        exact ⟨rfl, hts⟩

lemma createAttackPacket_malicious (a : Attack) (o : AttackPacketOracle) (p : Packet)
    (hi : 0 ≤ a.intensity) (h : (createAttackPacket a o).1 = some p) :
    p.is_malicious = true ∧ 0 < p.threat_score := by
  have h04 : 0 ≤ (0.4 : ℚ) * a.intensity := by positivity
  have h02 : 0 ≤ (0.2 : ℚ) * a.intensity := by positivity
  have h05 : 0 ≤ (0.5 : ℚ) * a.intensity := by positivity
  unfold createAttackPacket at h
  cases ht : a.attack_type <;> rw [ht] at h <;> dsimp only at h <;>
    injection h with h <;> subst h
  case portScan =>
    unfold create_port_scan_packet
    rw [mkPacket_is_malicious, mkPacket_threat_score]
    exact ⟨rfl, by linarith⟩
  case ddos =>
    unfold create_ddos_packet
    rw [mkPacket_is_malicious, mkPacket_threat_score]
    exact ⟨rfl, by linarith⟩
  case malwareSpread =>
    unfold create_malware_packet
    rw [mkPacket_is_malicious, mkPacket_threat_score]
    exact ⟨rfl, by norm_num⟩
  case bruteForce =>
    unfold create_brute_force_packet
    rw [mkPacket_is_malicious, mkPacket_threat_score]
    exact ⟨rfl, by norm_num⟩
  case sqlInjection =>
    unfold create_sql_injection_packet
    rw [mkPacket_is_malicious, mkPacket_threat_score]
    exact ⟨rfl, by norm_num⟩
  all_goals
    exact create_attack_packet_malicious _ _ _ _ _ (by linarith)

lemma attackPacketLoop_malicious (o : AttackTickOracle) (k i : Nat) (a : Attack)
    (hi : 0 ≤ a.intensity) :
    ∀ p ∈ (attackPacketLoop o i k a).1,
      p.is_malicious = true ∧ 0 < p.threat_score := by
  induction k generalizing i a with
  | zero => intro p hp; simp [attackPacketLoop] at hp
  | succ k ih =>
    intro p hp
    unfold attackPacketLoop at hp
    rcases h : createAttackPacket a (o.pkt i) with ⟨op, a'⟩
    rw [h] at hp
    have hstate := createAttackPacket_state a (o.pkt i)
    rw [h] at hstate
    cases op with
    | none =>
      have hs := createAttackPacket_isSome a (o.pkt i)
      rw [h] at hs
      simp at hs
    | some q =>
      simp only at hp
      rcases List.mem_cons.mp hp with h1 | h1
      · subst h1
        exact createAttackPacket_malicious a (o.pkt i) p hi (by rw [h])
      · exact ih (i + 1) _ (by dsimp only; rw [hstate.1.2.1]; exact hi) p h1

/-- C10: every packet produced by an attack's per-tick packet generation,
whatever the category (port scan, DDoS, malware spread, brute force, SQL
injection, or the generic fallback), carries `is_malicious = true` and a
strictly positive `threat_score`, provided the intensity is non-negative. -/
theorem attack_packets_malicious (a : Attack) (dt : ℚ) (o : AttackTickOracle)
    (hi : 0 ≤ a.intensity) :
    ∀ p ∈ (Attack.generate_packets a dt o).1,
      p.is_malicious = true ∧ 0 < p.threat_score := by
  unfold Attack.generate_packets
  split
  · intro p hp; simp at hp
  · dsimp only
    exact attackPacketLoop_malicious o _ 0 a hi

/-- Witness for C10 at a concrete generic-category attack (XSS falls to the
generic fallback) evaluated on its first emitted packet. -/
theorem attack_packets_malicious_witness :
    (0 : ℚ) ≤ (Attack.init "atk_000001" .xss "A" "B" 0.7 {}).intensity ∧
    ∀ p ∈ ((Attack.init "atk_000001" .xss "A" "B" 0.7 {}).generate_packets 1
        { frac_draw := 0 }).1,
      p.is_malicious = true ∧ 0 < p.threat_score :=
  ⟨by norm_num [Attack.init],
   attack_packets_malicious (Attack.init "atk_000001" .xss "A" "B" 0.7 {}) 1
     { frac_draw := 0 } (by norm_num [Attack.init])⟩

/-! ## AttackGenerator (`src/backend/simulation/attack_generator.py`). -/

/-- `NodeType` enum from `network_node.py`. -/
inductive NodeType
  | client | server | router | switch | firewall | honeypot
deriving DecidableEq

/-- `NetworkNode` dataclass (`network_node.py`); resource gauges are
wall-clock floats the generator never reads and are kept as rationals. -/
structure NetworkNode where
  id : String
  name : String := ""
  node_type : NodeType := .client
  ip_address : String := ""
  mac_address : String := ""
  security_level : Int := 50
  is_compromised : Bool := false
  is_quarantined : Bool := false
  services : List String := []
  cpu_usage : ℚ := 0
  memory_usage : ℚ := 0
  bandwidth_used : ℚ := 0
  value_score : Int := 1
deriving DecidableEq

/-- The `self.stats` dict of `AttackGenerator`; `active_attacks` is a
Python int and may be decremented, hence `Int`. -/
structure GenStats where
  total_attacks : Nat := 0
  active_attacks : Int := 0
  detected_attacks : Nat := 0
  stopped_attacks : Nat := 0
  total_damage : ℚ := 0
  total_packets : Nat := 0
  total_bytes : Nat := 0
deriving DecidableEq

/-- `AttackGenerator` state: the topology's node objects (which the
generator mutates when marking a source compromised), the insertion-ordered
`attacks` dict as a keyed list, the id counter and the stats dict. -/
structure AttackGenerator where
  network : List NetworkNode
  attacks : List (String × Attack) := []
  attack_counter : Nat := 0
  stats : GenStats := {}
deriving DecidableEq

/-- `random.choice(l)`: some element of a non-empty list (the oracle index
selects which); `none` exactly when the list is empty (where Python would
raise `IndexError`). -/
def pyChoice (l : List α) (i : Nat) : Option α := l.get? (i % l.length)

/-- `AttackGenerator._select_attack_source`: prefer compromised nodes, then
low-security (< 50) nodes, else any node. -/
def select_attack_source (nodes : List NetworkNode) (choice : Nat) :
    Option NetworkNode :=
  let compromised := nodes.filter (fun n => n.is_compromised)
  if compromised.length > 0 then pyChoice compromised choice
  else
    let vulnerable := nodes.filter (fun n => n.security_level < 50)
    if vulnerable.length > 0 then pyChoice vulnerable choice
    else pyChoice nodes choice

/-- `AttackGenerator._select_attack_target`: category-aware preference,
always excluding the source; `none` when no potential target exists. -/
def select_attack_target (nodes : List NetworkNode) (source : NetworkNode)
    (t : AttackType) (choice : Nat) : Option NetworkNode :=
  let potential_targets := nodes.filter (fun n => n.id ≠ source.id)
  let preferred : List NetworkNode :=
    if t = .ddos then
      potential_targets.filter (fun n => n.value_score ≥ 7)
    else if t = .sqlInjection then
      potential_targets.filter (fun n =>
        n.services.any (fun s => s == "http" || s == "database" || s == "web"))
    else if t = .bruteForce then
      potential_targets.filter (fun n =>
        n.services.any (fun s => s == "ssh" || s == "rdp" || s == "vnc" || s == "telnet"))
    else []
  if preferred.length > 0 then pyChoice preferred choice
  else if potential_targets.length > 0 then pyChoice potential_targets choice
  else none

/-- Random draws consumed by one `generate_specific_attack` call. -/
structure SpawnOracle where
  src_choice : Nat := 0
  tgt_choice : Nat := 0
  init : AttackInitOracle := {}

/-- `AttackGenerator.generate_specific_attack`: select source and target,
mark the source compromised, create and register the attack, bump the
`total`/`active` counters. -/
def generate_specific_attack (g : AttackGenerator) (t : AttackType)
    (intensity : ℚ) (o : SpawnOracle) : Option Attack × AttackGenerator :=
  let nodes := g.network
  if nodes.length < 2 then (none, g)
  else
    match select_attack_source nodes o.src_choice with
    | none => (none, g)
    | some source =>
      match select_attack_target nodes source t o.tgt_choice with
      | none => (none, g)
      | some target =>
        let network' := g.network.map (fun n =>
          if n.id = source.id then { n with is_compromised := true } else n)
        let attack_id := "atk_" ++ padNum 6 g.attack_counter
        let attack := Attack.init attack_id t source.id target.id intensity o.init
        (some attack,
         { g with network := network',
                  attacks := g.attacks ++ [(attack_id, attack)],
                  attack_counter := g.attack_counter + 1,
                  stats := { g.stats with
                    total_attacks := g.stats.total_attacks + 1,
                    active_attacks := g.stats.active_attacks + 1 } })

/-- Random draws consumed by one `AttackGenerator.update` call. -/
structure UpdateOracle where
  tick : Nat → AttackTickOracle := fun _ => {}
  stop_draw : Nat → ℚ := fun _ => 1
  spawn_draw : AttackType → ℚ := fun _ => 1
  spawn : AttackType → SpawnOracle := fun _ => {}

/-- One iteration of `AttackGenerator.update`'s per-attack loop: tick the
i-th attack if it is active, accumulate packet/byte stats, recompute
`total_damage` over all attacks, and roll the detection-driven auto-stop. -/
def updateAttackAt (g : AttackGenerator) (i : Nat) (dt : ℚ)
    (tco : AttackTickOracle) (stop_draw : ℚ) : List Packet × AttackGenerator :=
  match g.attacks.get? i with
  | none => ([], g)
  | some (aid, attack) =>
    if attack.is_active = true ∧ attack.stopped = false then
      let pa := attack.generate_packets dt tco
      let attacks' := g.attacks.set i (aid, pa.2)
      let stats' := { g.stats with
        total_packets := g.stats.total_packets + pa.1.length,
        total_bytes := g.stats.total_bytes + (pa.1.map (fun (p : Packet) => p.payload_size)).sum }
      let stats'' := { stats' with
        total_damage := (attacks'.map (fun (x : String × Attack) => x.2.damage_caused)).sum }
      if pa.2.detected = true ∧ stop_draw < 0.1 * dt then
        (pa.1,
         { g with attacks := attacks'.set i (aid, pa.2.stop),
                  stats := { stats'' with
                    stopped_attacks := stats''.stopped_attacks + 1,
                    active_attacks := stats''.active_attacks - 1 } })
      else (pa.1, { g with attacks := attacks', stats := stats'' })
    else ([], g)

/-- The per-attack loop of `AttackGenerator.update` over the snapshot of
the attacks list taken at call time. -/
def updateLoop (dt : ℚ) (o : UpdateOracle) :
    Nat → Nat → AttackGenerator → List Packet × AttackGenerator
  | _, 0, g => ([], g)
  | i, k + 1, g =>
    let pg := updateAttackAt g i dt (o.tick i) (o.stop_draw i)
    let rest := updateLoop dt o (i + 1) k pg.2
    (pg.1 ++ rest.1, rest.2)

/-- The `attack_probabilities` table (chance per second), in dict
insertion order. -/
def attackProbabilities : List (AttackType × ℚ) :=
  [(.portScan, 0.02), (.ddos, 0.005), (.malwareSpread, 0.01),
   (.bruteForce, 0.008), (.sqlInjection, 0.003), (.xss, 0.002),
   (.csrf, 0.002), (.arpSpoofing, 0.001), (.zeroDay, 0.0001)]

/-- The new-attack loop at the end of `AttackGenerator.update`: for each
category, roll `probability × dt` and possibly launch a new attack with
the default intensity 0.7. -/
def spawnLoop (dt : ℚ) (o : UpdateOracle) :
    List (AttackType × ℚ) → AttackGenerator → AttackGenerator
  | [], g => g
  | (t, prob) :: rest, g =>
    let g' := if o.spawn_draw t < prob * dt
      then (generate_specific_attack g t 0.7 (o.spawn t)).2 else g
    spawnLoop dt o rest g'

/-- `AttackGenerator.update`: tick every tracked attack, then roll for new
attacks. -/
def AttackGenerator.update (g : AttackGenerator) (dt : ℚ) (o : UpdateOracle) :
    List Packet × AttackGenerator :=
  let pg := updateLoop dt o 0 g.attacks.length g
  (pg.1, spawnLoop dt o attackProbabilities pg.2)

/-- `AttackGenerator.stop_attack`: stop a specific attack; returns whether
anything was stopped (`False` signals the no-op). -/
def AttackGenerator.stop_attack (g : AttackGenerator) (attack_id : String) :
    Bool × AttackGenerator :=
  match g.attacks.findIdx? (fun x => x.1 == attack_id) with
  | none => (false, g)
  | some i =>
    match g.attacks.get? i with
    | none => (false, g)
    | some (aid, attack) =>
      if attack.is_active = true then
        (true,
         { g with attacks := g.attacks.set i (aid, attack.stop),
                  stats := { g.stats with
                    stopped_attacks := g.stats.stopped_attacks + 1,
                    active_attacks := g.stats.active_attacks - 1 } })
      else (false, g)

/-- `AttackGenerator.stop_all_attacks`: stop every active attack, counting
each into `stopped_attacks`, then reset the `active_attacks` counter to
zero. -/
def AttackGenerator.stop_all_attacks (g : AttackGenerator) : AttackGenerator :=
  { g with
    attacks := g.attacks.map (fun x =>
      if x.2.is_active = true then (x.1, x.2.stop) else x),
    stats := { g.stats with
      stopped_attacks := g.stats.stopped_attacks +
        (g.attacks.filter (fun x => x.2.is_active)).length,
      active_attacks := 0 } }

/-- The operations a caller can perform on an `AttackGenerator`
(`stop_all_attacks` is treated separately, see
`attack_stats_conservation`). -/
inductive GenOp
  | genAttack (t : AttackType) (intensity : ℚ) (o : SpawnOracle)
  | update (dt : ℚ) (o : UpdateOracle)
  | stopAttack (aid : String)

/-- Apply one generator operation, discarding the returned value. -/
def applyOp (g : AttackGenerator) : GenOp → AttackGenerator
  | .genAttack t i o => (generate_specific_attack g t i o).2
  | .update dt o => (AttackGenerator.update g dt o).2
  | .stopAttack aid => (AttackGenerator.stop_attack g aid).2

/-- Apply a sequence of generator operations. -/
def applyOps (g : AttackGenerator) : List GenOp → AttackGenerator
  | [] => g
  | op :: rest => applyOps (applyOp g op) rest

/-- The C4 statistics invariant: the running counters satisfy
`active_attacks + stopped_attacks = total_attacks`, and every tracked
attack's `is_active` flag is the negation of its `stopped` flag (so every
attack — detected or not — is exactly one of active or stopped). -/
def StatsInv (g : AttackGenerator) : Prop :=
  g.stats.active_attacks + (g.stats.stopped_attacks : Int) =
    (g.stats.total_attacks : Int) ∧
  ∀ x ∈ g.attacks, x.2.is_active = !x.2.stopped

lemma update_attack_state_flags (a : Attack) (dt : ℚ) (o : AttackTickOracle)
    (h : a.is_active = !a.stopped) :
    (update_attack_state a dt o).is_active = !(update_attack_state a dt o).stopped := by
  unfold update_attack_state Attack.stop
  dsimp only
  repeat' split
  all_goals simp_all

lemma generate_packets_flags (a : Attack) (dt : ℚ) (o : AttackTickOracle)
    (h : a.is_active = !a.stopped) :
    (Attack.generate_packets a dt o).2.is_active =
      !(Attack.generate_packets a dt o).2.stopped := by
  unfold Attack.generate_packets
  split
  · exact h
  · dsimp only
    have hstate := attackPacketLoop_state o
      (stochasticCount (a.parameters.packet_rate * dt) o.frac_draw).toNat 0 a
    obtain ⟨_, ⟨e4, e5, _⟩, _⟩ := hstate
    exact update_attack_state_flags _ dt o (by rw [e4, e5]; exact h)

lemma generate_specific_attack_inv (g : AttackGenerator) (t : AttackType)
    (intensity : ℚ) (o : SpawnOracle) (hg : StatsInv g) :
    StatsInv (generate_specific_attack g t intensity o).2 := by
  unfold generate_specific_attack
  dsimp only
  split
  · exact hg
  · split
    · exact hg
    · split
      · exact hg
      · refine ⟨?_, ?_⟩
        · have := hg.1
          dsimp only
          push_cast at this ⊢
          omega
        · intro x hx
          dsimp only at hx
          rcases List.mem_append.mp hx with hx' | hx'
          · exact hg.2 x hx'
          · simp only [List.mem_singleton] at hx'
            subst hx'
            rfl

lemma updateAttackAt_inv (g : AttackGenerator) (i : Nat) (dt : ℚ)
    (tco : AttackTickOracle) (sd : ℚ) (hg : StatsInv g) :
    StatsInv (updateAttackAt g i dt tco sd).2 := by
  unfold updateAttackAt
  split
  · exact hg
  · rename_i aid attack hget
    split
    · dsimp only
      have hmem : (aid, attack) ∈ g.attacks := List.get?_mem hget
      have hflags := generate_packets_flags attack dt tco (hg.2 _ hmem)
      split
      · refine ⟨?_, ?_⟩
        · have := hg.1
          dsimp only
          push_cast at this ⊢
          omega
        · intro x hx
          dsimp only at hx
          rcases List.mem_or_eq_of_mem_set hx with hx' | hx'
          · rcases List.mem_or_eq_of_mem_set hx' with hx'' | hx''
            · exact hg.2 x hx''
            · subst hx''; exact hflags
          · subst hx'; rfl
      · refine ⟨hg.1, ?_⟩
        intro x hx
        dsimp only at hx
        rcases List.mem_or_eq_of_mem_set hx with hx' | hx'
        · exact hg.2 x hx'
        · subst hx'; exact hflags
    · exact hg

lemma updateLoop_inv (dt : ℚ) (o : UpdateOracle) (k i : Nat)
    (g : AttackGenerator) (hg : StatsInv g) :
    StatsInv (updateLoop dt o i k g).2 := by
  induction k generalizing i g with
  | zero => exact hg
  | succ k ih =>
    unfold updateLoop
    dsimp only
    exact ih (i + 1) _ (updateAttackAt_inv g i dt (o.tick i) (o.stop_draw i) hg)

lemma spawnLoop_inv (dt : ℚ) (o : UpdateOracle) (l : List (AttackType × ℚ))
    (g : AttackGenerator) (hg : StatsInv g) :
    StatsInv (spawnLoop dt o l g) := by
  induction l generalizing g with
  | nil => exact hg
  | cons hd rest ih =>
    rcases hd with ⟨t, prob⟩
    unfold spawnLoop
    dsimp only
    apply ih
    split
    · exact generate_specific_attack_inv g t 0.7 (o.spawn t) hg
    · exact hg

lemma update_inv (g : AttackGenerator) (dt : ℚ) (o : UpdateOracle)
    (hg : StatsInv g) : StatsInv (AttackGenerator.update g dt o).2 := by
  unfold AttackGenerator.update
  dsimp only
  exact spawnLoop_inv dt o attackProbabilities _
    (updateLoop_inv dt o g.attacks.length 0 g hg)

lemma stop_attack_inv (g : AttackGenerator) (aid : String)
    (hg : StatsInv g) : StatsInv (AttackGenerator.stop_attack g aid).2 := by
  unfold AttackGenerator.stop_attack
  split
  · exact hg
  · split
    · exact hg
    · split
      · refine ⟨?_, ?_⟩
        · have := hg.1
          dsimp only
          push_cast at this ⊢
          omega
        · intro x hx
          dsimp only at hx
          rcases List.mem_or_eq_of_mem_set hx with hx' | hx'
          · exact hg.2 x hx'
          · subst hx'; rfl
      · exact hg

lemma stop_all_attacks_inv (g : AttackGenerator) (hg : StatsInv g)
    (hcount : g.stats.active_attacks =
      ((g.attacks.filter (fun x => x.2.is_active)).length : Int)) :
    StatsInv g.stop_all_attacks ∧
    g.stop_all_attacks.stats.active_attacks = 0 := by
  refine ⟨⟨?_, ?_⟩, rfl⟩
  · have h1 := hg.1
    show (0 : Int) + ((g.stats.stopped_attacks +
      (g.attacks.filter (fun x => x.2.is_active)).length : Nat) : Int) =
      (g.stats.total_attacks : Int)
    push_cast at h1 hcount ⊢
    omega
  · intro x hx
    dsimp only [AttackGenerator.stop_all_attacks] at hx
    rcases List.mem_map.mp hx with ⟨y, hy, hxy⟩
    by_cases hya : y.2.is_active = true
    · rw [if_pos hya] at hxy
      subst hxy
      rfl
    · rw [if_neg hya] at hxy
      subst hxy
      exact hg.2 y hy

lemma applyOps_inv (ops : List GenOp) :
    ∀ g : AttackGenerator, StatsInv g → StatsInv (applyOps g ops) := by
  induction ops with
  | nil => exact fun g hg => hg
  | cons op rest ih =>
    intro g hg
    unfold applyOps
    apply ih
    cases op with
    | genAttack t i o => exact generate_specific_attack_inv g t i o hg
    | update dt o => exact update_inv g dt o hg
    | stopAttack aid => exact stop_attack_inv g aid hg

/-- C4 (amended): from any state satisfying the statistics invariant,
`active_attacks + stopped_attacks = total_attacks` is preserved by every
sequence of generate/update/stop operations; `stop_all_attacks` preserves
it exactly when the running `active_attacks` counter agrees with the
actual number of active attacks (the DDoS flood-duration self-stop
bypasses the counters and can break that agreement); and every attack —
in particular every detected one — is active or stopped, never a third
state. -/
theorem attack_stats_conservation (g : AttackGenerator) (hg : StatsInv g) :
    (∀ ops : List GenOp, StatsInv (applyOps g ops)) ∧
    (g.stats.active_attacks =
        ((g.attacks.filter (fun x => x.2.is_active)).length : Int) →
      StatsInv g.stop_all_attacks ∧
      g.stop_all_attacks.stats.active_attacks = 0) ∧
    (∀ x ∈ g.attacks, x.2.detected = true →
      x.2.is_active = true ∨ x.2.stopped = true) := by
  refine ⟨fun ops => applyOps_inv ops g hg,
    fun hc => stop_all_attacks_inv g hg hc, ?_⟩
  intro x hx _
  have h := hg.2 x hx
  cases hstop : x.2.stopped with
  | true => exact Or.inr rfl
  | false => rw [hstop] at h; exact Or.inl (by simpa using h)

/-- Nodes of the counterexample topology: `n1` is low-security (becomes the
attack source), `n2` is the target. -/
def cexNode1 : NetworkNode := { id := "n1", security_level := 40 }

/-- Second node of the counterexample topology. -/
def cexNode2 : NetworkNode := { id := "n2" }

/-- The counterexample's initial generator state. -/
def cexGen0 : AttackGenerator := { network := [cexNode1, cexNode2] }

/-- The DDoS attack the counterexample launches (flood duration 30 s by
the default init draws). -/
def cexAtk : Attack := Attack.init "atk_000000" .ddos "n1" "n2" 0.7 {}

/-- The tick draws of the counterexample's update: no stochastic extra
packet, wall clock 31 s past the start (beyond the 30 s flood duration),
no detection. -/
def cexTick : AttackTickOracle := { frac_draw := 1, now := 31, detect_draw := 1 }

/-- The update draws of the counterexample: the single attack ticks with
`cexTick`; no new attacks spawn. -/
def cexUpdOracle : UpdateOracle := { tick := fun _ => cexTick }

/-- Generator state after launching the DDoS attack. -/
def cexGen1 : AttackGenerator := (generate_specific_attack cexGen0 .ddos 0.7 {}).2

/-- The attack after the tick that self-stops it. -/
def cexA1 : Attack := update_attack_state cexAtk (1/1000) cexTick

/-- Generator state after the update tick (the attack has self-stopped,
the counters have not been reconciled). -/
def cexGen2 : AttackGenerator := (cexGen1.update (1/1000) cexUpdOracle).2

/-- Generator state after `stop_all_attacks`. -/
def cexGen3 : AttackGenerator := cexGen2.stop_all_attacks

lemma spawnLoop_noop (dt : ℚ) (o : UpdateOracle) (l : List (AttackType × ℚ))
    (g : AttackGenerator) (h : ∀ tp ∈ l, ¬(o.spawn_draw tp.1 < tp.2 * dt)) :
    spawnLoop dt o l g = g := by
  induction l generalizing g with
  | nil => rfl
  | cons hd rest ih =>
    unfold spawnLoop
    rw [if_neg (h hd (List.mem_cons_self hd rest))]
    exact ih g (fun tp htp => h tp (List.mem_cons_of_mem hd htp))

lemma cex_count :
    (stochasticCount (cexAtk.parameters.packet_rate * (1/1000))
      cexTick.frac_draw).toNat = 0 := by
  have hrate : cexAtk.parameters.packet_rate = 1000 * 0.7 := rfl
  have hfrac : cexTick.frac_draw = 1 := rfl
  rw [hrate, hfrac]
  have hexp : ((1000 : ℚ) * 0.7 * (1/1000)) = 7/10 := by norm_num
  rw [hexp]
  unfold stochasticCount pyInt
  rw [if_pos (by norm_num : (0:ℚ) ≤ 7/10)]
  have hfloor : ⌊(7/10 : ℚ)⌋ = 0 := by
    rw [Int.floor_eq_iff]
    norm_num
  rw [hfloor]
  norm_num

lemma cex_A1_flags :
    cexA1.is_active = false ∧ cexA1.stopped = true ∧ cexA1.detected = false := by
  have hddos : cexAtk.attack_type = AttackType.ddos := rfl
  have hflood : cexTick.now - cexAtk.start_time > cexAtk.parameters.flood_duration := by
    norm_num [cexTick, cexAtk, Attack.init, init_attack_parameters]
  have hdet0 : cexAtk.detected = false := rfl
  have hdetcond : ¬(cexTick.detect_draw < 0.01 * cexAtk.intensity * (1/1000)) := by
    norm_num [cexTick, cexAtk, Attack.init]
  unfold cexA1 update_attack_state Attack.stop
  dsimp only
  rw [if_pos hddos, if_pos hflood]
  simp only [hdet0, eq_self_iff_true, if_true]
  rw [if_neg hdetcond]
  exact ⟨rfl, rfl, hdet0⟩

lemma cex_tick_eq : cexAtk.generate_packets (1/1000) cexTick = ([], cexA1) := by
  have hact : cexAtk.is_active = true := rfl
  have hstop : cexAtk.stopped = false := rfl
  unfold Attack.generate_packets
  rw [if_neg (by simp [hact, hstop])]
  dsimp only
  rw [cex_count]
  rfl

lemma cex_updateAttackAt :
    (updateAttackAt cexGen1 0 (1/1000) cexTick 1).2.stats.total_attacks = 1 ∧
    (updateAttackAt cexGen1 0 (1/1000) cexTick 1).2.stats.active_attacks = 1 ∧
    (updateAttackAt cexGen1 0 (1/1000) cexTick 1).2.stats.stopped_attacks = 0 ∧
    (updateAttackAt cexGen1 0 (1/1000) cexTick 1).2.attacks =
      [("atk_000000", cexA1)] := by
  have hget : cexGen1.attacks.get? 0 = some ("atk_000000", cexAtk) := rfl
  have hact : cexAtk.is_active = true := rfl
  have hstop : cexAtk.stopped = false := rfl
  unfold updateAttackAt
  rw [hget]
  dsimp only
  rw [if_pos ⟨hact, hstop⟩, cex_tick_eq]
  dsimp only
  rw [if_neg (by simp [cex_A1_flags.2.2])]
  exact ⟨rfl, rfl, rfl, rfl⟩

lemma cex_gen2_facts :
    cexGen2.stats.total_attacks = 1 ∧
    cexGen2.stats.active_attacks = 1 ∧
    cexGen2.stats.stopped_attacks = 0 ∧
    cexGen2.attacks = [("atk_000000", cexA1)] := by
  have hspawn : ∀ tp ∈ attackProbabilities,
      ¬(cexUpdOracle.spawn_draw tp.1 < tp.2 * (1/1000 : ℚ)) := by
    intro tp htp
    have h1 : cexUpdOracle.spawn_draw tp.1 = 1 := rfl
    rw [h1]
    fin_cases htp <;> norm_num
  have hloop : cexGen2 = (updateAttackAt cexGen1 0 (1/1000) cexTick 1).2 := by
    unfold cexGen2 AttackGenerator.update
    dsimp only
    rw [spawnLoop_noop _ _ _ _ hspawn]
    rfl
  rw [hloop]
  exact cex_updateAttackAt

/-- C4 counterexample: launch one DDoS attack, tick once with the wall
clock past the flood duration (the attack self-stops without touching the
counters), then call `stop_all_attacks`: it finds no active attack to
count, so the statistics end at `total_attacks = 1`,
`active_attacks = 0`, `stopped_attacks = 0`, violating
`active_attacks + stopped_attacks == total_attacks`. -/
theorem attack_stats_conservation_counterexample :
    StatsInv cexGen0 ∧
    ¬ (cexGen3.stats.active_attacks + (cexGen3.stats.stopped_attacks : Int) =
       (cexGen3.stats.total_attacks : Int)) := by
  obtain ⟨h1, h2, h3, h4⟩ := cex_gen2_facts
  constructor
  · exact ⟨rfl, by intro x hx; simp [cexGen0] at hx⟩
  · have hfilter : (cexGen2.attacks.filter (fun x => x.2.is_active)).length = 0 := by
      rw [h4]
      simp [cex_A1_flags.1]
    unfold cexGen3 AttackGenerator.stop_all_attacks
    dsimp only
    rw [hfilter, h1, h3]
    decide

/-- Witness for C4 (amended) at a concrete invariant-satisfying state and
operation sequence. -/
theorem attack_stats_conservation_witness :
    StatsInv cexGen0 ∧
    StatsInv (applyOps cexGen0 [GenOp.genAttack .portScan 0.5 {}]) :=
  ⟨⟨rfl, by intro x hx; simp [cexGen0] at hx⟩,
   (attack_stats_conservation cexGen0
      ⟨rfl, by intro x hx; simp [cexGen0] at hx⟩).1
     [GenOp.genAttack .portScan 0.5 {}]⟩

/-- C5: stopping an already-stopped attack is a no-op — `stop_attack`
returns `False` (the no-op signal) and leaves the generator, its
statistics and every attack field unchanged; and `Attack.stop` on a
stopped, inactive attack returns the attack with every field unchanged. -/
theorem stop_idempotent (g : AttackGenerator) (aid : String)
    (hstopped : ∀ x ∈ g.attacks, x.1 = aid →
      x.2.stopped = true ∧ x.2.is_active = false) :
    AttackGenerator.stop_attack g aid = (false, g) ∧
    (∀ a : Attack, a.stopped = true → a.is_active = false →
      Attack.stop a = a) := by
  constructor
  · unfold AttackGenerator.stop_attack
    cases hfind : g.attacks.findIdx? (fun x => x.1 == aid) with
    | none => rfl
    | some i =>
      dsimp only
      cases hget : g.attacks.get? i with
      | none => rfl
      | some pair =>
        rcases pair with ⟨aid', attack⟩
        have hp := List.findIdx?_of_eq_some hfind
        rw [← List.get?_eq_getElem?, hget] at hp
        simp only [beq_iff_eq] at hp
        have hmem : (aid', attack) ∈ g.attacks := List.get?_mem hget
        have hia := (hstopped _ hmem hp).2
        dsimp only
        rw [if_neg (by simp only [Bool.not_eq_true]; exact hia)]
  · intro a h1 h2
    cases a
    simp_all [Attack.stop]

/-- A concrete stopped attack for the C5 witness. -/
def stoppedAtk : Attack :=
  Attack.stop (Attack.init "atk_000000" .portScan "n1" "n2" 0.7 {})

/-- A generator tracking one stopped attack, for the C5 witness. -/
def gStopped : AttackGenerator :=
  { network := [], attacks := [("atk_000000", stoppedAtk)], attack_counter := 1,
    stats := { total_attacks := 1, stopped_attacks := 1 } }

/-- Witness for C5: the second stop of a concrete stopped attack returns
the no-op signal and the unchanged generator. -/
theorem stop_idempotent_witness :
    (∀ x ∈ gStopped.attacks, x.1 = "atk_000000" →
      x.2.stopped = true ∧ x.2.is_active = false) ∧
    AttackGenerator.stop_attack gStopped "atk_000000" = (false, gStopped) := by
  have h : ∀ x ∈ gStopped.attacks, x.1 = "atk_000000" →
      x.2.stopped = true ∧ x.2.is_active = false := by
    intro x hx _
    simp only [gStopped, List.mem_singleton] at hx
    subst hx
    exact ⟨rfl, rfl⟩
  exact ⟨h, (stop_idempotent gStopped "atk_000000" h).1⟩

/-! ## Topology (`src/backend/simulation/network_graph.py`). -/

/-- `NetworkEdge` dataclass (`network_edge.py`). -/
structure NetworkEdge where
  id : String
  source_id : String
  target_id : String
  bandwidth : ℚ := 100
  latency : ℚ := 10
  supported_protocols : List Protocol := [.tcp]
  current_protocol : Option Protocol := none
  encryption_level : Int := 0
  is_monitored : Bool := false
  traffic_volume : ℚ := 0
  packet_count : Nat := 0
  error_rate : ℚ := 0
deriving DecidableEq

/-- Python-dict upsert on a keyed list: overwrite in place if the key is
present, else append (dicts preserve insertion order). -/
def dictInsert (l : List (String × α)) (k : String) (v : α) : List (String × α) :=
  if l.any (fun x => x.1 == k) then
    l.map (fun x => if x.1 = k then (k, v) else x)
  else l ++ [(k, v)]

/-- `NetworkGraph`: the authoritative `nodes` and `edges` dicts (the
mirrored `networkx` graph only backs the `get_edge` fallback query and
adds no constraints of its own, so it is not modeled). -/
structure NetworkGraph where
  nodes : List (String × NetworkNode) := []
  edges : List (String × NetworkEdge) := []
  edge_counter : Nat := 0
deriving DecidableEq

/-- `NetworkGraph.add_node`: store under `node.id`. -/
def NetworkGraph.add_node (g : NetworkGraph) (node : NetworkNode) : NetworkGraph :=
  { g with nodes := dictInsert g.nodes node.id node }

/-- `NetworkGraph.add_edge`: store under `edge.id` unconditionally — the
source performs NO validation of the edge's endpoints. -/
def NetworkGraph.add_edge (g : NetworkGraph) (edge : NetworkEdge) : NetworkGraph :=
  { g with edges := dictInsert g.edges edge.id edge }

/-- `NetworkGraph.remove_node`: delete the node if present and cascade to
every incident edge; returns whether anything was removed. -/
def NetworkGraph.remove_node (g : NetworkGraph) (node_id : String) :
    NetworkGraph × Bool :=
  if g.nodes.any (fun x => x.1 == node_id) then
    ({ g with
       nodes := g.nodes.filter (fun x => !(x.1 == node_id)),
       edges := g.edges.filter (fun x =>
         !(x.2.source_id == node_id || x.2.target_id == node_id)) }, true)
  else (g, false)

/-- `NetworkGraph.get_node`. -/
def NetworkGraph.get_node (g : NetworkGraph) (node_id : String) :
    Option NetworkNode :=
  (g.nodes.find? (fun x => x.1 == node_id)).map (fun x => x.2)

/-- The topology operations of the C7 claim. -/
inductive GraphOp
  | addNode (n : NetworkNode)
  | addEdge (e : NetworkEdge)
  | removeNode (id : String)

/-- Apply one topology operation. -/
def applyGraphOp (g : NetworkGraph) : GraphOp → NetworkGraph
  | .addNode n => g.add_node n
  | .addEdge e => g.add_edge e
  | .removeNode id => (g.remove_node id).1

/-- Apply a sequence of topology operations. -/
def applyGraphOps (g : NetworkGraph) : List GraphOp → NetworkGraph
  | [] => g
  | op :: rest => applyGraphOps (applyGraphOp g op) rest

/-- The C7 invariant: every stored edge's endpoints are keys of the node
map. -/
def EdgesValid (g : NetworkGraph) : Prop :=
  ∀ x ∈ g.edges, (∃ y ∈ g.nodes, y.1 = x.2.source_id) ∧
    (∃ y ∈ g.nodes, y.1 = x.2.target_id)

/-- A sequence of operations is endpoint-valid when every `addEdge` is
issued while both endpoints are present. -/
def ValidSeq (g : NetworkGraph) : List GraphOp → Prop
  | [] => True
  | op :: rest =>
    (match op with
     | .addEdge e => (∃ y ∈ g.nodes, y.1 = e.source_id) ∧
         (∃ y ∈ g.nodes, y.1 = e.target_id)
     | _ => True) ∧ ValidSeq (applyGraphOp g op) rest

lemma mem_dictInsert (l : List (String × α)) (k : String) (v : α) (x : String × α)
    (h : x ∈ dictInsert l k v) : x ∈ l ∨ x = (k, v) := by
  unfold dictInsert at h
  split at h
  · rcases List.mem_map.mp h with ⟨y, hy, hxy⟩
    by_cases hk : y.1 = k
    · rw [if_pos hk] at hxy; exact Or.inr hxy.symm
    · rw [if_neg hk] at hxy; exact Or.inl (hxy ▸ hy)
  · rcases List.mem_append.mp h with h' | h'
    · exact Or.inl h'
    · simp only [List.mem_singleton] at h'; exact Or.inr h'

lemma dictInsert_key_stable (l : List (String × α)) (k : String) (v : α) (s : String)
    (h : ∃ y ∈ l, y.1 = s) : ∃ y ∈ dictInsert l k v, y.1 = s := by
  obtain ⟨y, hy, hys⟩ := h
  unfold dictInsert
  split
  · by_cases hk : y.1 = k
    · exact ⟨(k, v), List.mem_map.mpr ⟨y, hy, by rw [if_pos hk]⟩, by rw [← hk, hys]⟩
    · exact ⟨y, List.mem_map.mpr ⟨y, hy, by rw [if_neg hk]⟩, hys⟩
  · exact ⟨y, List.mem_append.mpr (Or.inl hy), hys⟩

lemma add_node_valid (g : NetworkGraph) (n : NetworkNode) (hg : EdgesValid g) :
    EdgesValid (g.add_node n) := by
  intro x hx
  have hx' : x ∈ g.edges := hx
  obtain ⟨h1, h2⟩ := hg x hx'
  exact ⟨dictInsert_key_stable _ _ _ _ h1, dictInsert_key_stable _ _ _ _ h2⟩

lemma add_edge_valid (g : NetworkGraph) (e : NetworkEdge) (hg : EdgesValid g)
    (hsrc : ∃ y ∈ g.nodes, y.1 = e.source_id)
    (htgt : ∃ y ∈ g.nodes, y.1 = e.target_id) :
    EdgesValid (g.add_edge e) := by
  intro x hx
  rcases mem_dictInsert _ _ _ _ hx with hx' | hx'
  · exact hg x hx'
  · subst hx'
    exact ⟨hsrc, htgt⟩

lemma remove_node_valid (g : NetworkGraph) (node_id : String) (hg : EdgesValid g) :
    EdgesValid (g.remove_node node_id).1 := by
  unfold NetworkGraph.remove_node
  split
  · intro x hx
    dsimp only at hx
    rw [List.mem_filter] at hx
    obtain ⟨hmem, hpred⟩ := hx
    simp only [Bool.not_eq_true', Bool.or_eq_false_iff, beq_eq_false_iff_ne] at hpred
    obtain ⟨⟨y1, hy1, hy1s⟩, ⟨y2, hy2, hy2s⟩⟩ := hg x hmem
    refine ⟨⟨y1, ?_, hy1s⟩, ⟨y2, ?_, hy2s⟩⟩
    · rw [List.mem_filter]
      exact ⟨hy1, by simp [hy1s, hpred.1]⟩
    · rw [List.mem_filter]
      exact ⟨hy2, by simp [hy2s, hpred.2]⟩
  · exact hg

/-- C7 (amended): `removeNode` cascades to incident edges and `addNode`
and valid `addEdge`s preserve the endpoint invariant, so after any
sequence of operations whose `addEdge`s are issued with both endpoints
present, every stored edge's endpoints are in the node map — but
`addEdge` itself performs no validation (see the counterexample). -/
theorem edge_endpoints_invariant (g : NetworkGraph) (hg : EdgesValid g)
    (ops : List GraphOp) (hops : ValidSeq g ops) :
    EdgesValid (applyGraphOps g ops) := by
  induction ops generalizing g with
  | nil => exact hg
  | cons op rest ih =>
    unfold applyGraphOps
    obtain ⟨hop, hrest⟩ := hops
    apply ih _ _ hrest
    cases op with
    | addNode n => exact add_node_valid g n hg
    | addEdge e => exact add_edge_valid g e hg hop.1 hop.2
    | removeNode id => exact remove_node_valid g id hg

/-- The dangling edge of the C7 counterexample. -/
def danglingEdge : NetworkEdge := { id := "e1", source_id := "a", target_id := "b" }

/-- C7 counterexample: `add_edge` on an empty topology happily stores an
edge with unknown endpoints, so the claimed rejection does not exist and
the invariant is violated after a single `addEdge`. -/
theorem add_edge_no_validation_counterexample :
    (({} : NetworkGraph).add_edge danglingEdge).edges =
      [("e1", danglingEdge)] ∧
    ¬ EdgesValid (({} : NetworkGraph).add_edge danglingEdge) := by
  constructor
  · rfl
  · intro h
    obtain ⟨⟨y, hy, _⟩, _⟩ := h ("e1", danglingEdge)
      (by simp [NetworkGraph.add_edge, dictInsert, danglingEdge])
    simp [NetworkGraph.add_edge, dictInsert] at hy

/-- Witness for C7 (amended) at a concrete valid sequence: add two nodes,
an edge between them, then remove one node (the edge is cascaded away). -/
theorem edge_endpoints_invariant_witness :
    ValidSeq {} [GraphOp.addNode { id := "a" }, GraphOp.addNode { id := "b" },
      GraphOp.addEdge danglingEdge, GraphOp.removeNode "a"] ∧
    EdgesValid (applyGraphOps {} [GraphOp.addNode { id := "a" },
      GraphOp.addNode { id := "b" }, GraphOp.addEdge danglingEdge,
      GraphOp.removeNode "a"]) := by
  have hseq : ValidSeq {} [GraphOp.addNode { id := "a" },
      GraphOp.addNode { id := "b" }, GraphOp.addEdge danglingEdge,
      GraphOp.removeNode "a"] := by
    refine ⟨trivial, trivial, ⟨?_, ?_⟩, trivial, trivial⟩
    · exact ⟨("a", { id := "a" }), by simp [applyGraphOp, NetworkGraph.add_node, dictInsert], rfl⟩
    · exact ⟨("b", { id := "b" }), by simp [applyGraphOp, NetworkGraph.add_node, dictInsert], rfl⟩
  exact ⟨hseq, edge_endpoints_invariant {} (by intro x hx; simp at hx) _ hseq⟩

/-! ## `TrafficGenerator.create_connection`
(`src/backend/simulation/traffic_generator.py`). -/

/-- The `traffic_stats` dict fields `create_connection` touches. -/
structure TrafficStats where
  total_packets : Nat := 0
  total_bytes : Nat := 0
  packets_delivered : Nat := 0
  packets_dropped : Nat := 0
  tcp_connections : Nat := 0
  udp_flows : Nat := 0
  avg_latency : ℚ := 0
  peak_bandwidth : ℚ := 0
deriving DecidableEq

/-- `TrafficGenerator` state (the packet history list and per-tick loops
are not needed by the create-connection claim and are omitted; the
`network` reference is its node and edge stores). -/
structure TrafficGenerator where
  network_nodes : List (String × NetworkNode) := []
  network_edges : List (String × NetworkEdge) := []
  connections : List (String × Connection) := []
  active_flows : List String := []
  flow_counter : Nat := 0
  used_ports : List (String × List Nat) := []
  traffic_stats : TrafficStats := {}

/-- The `service_ports` table. -/
def service_ports : List (String × Nat) :=
  [("http", 80), ("https", 443), ("ssh", 22), ("ftp", 21), ("smtp", 25),
   ("dns", 53), ("dhcp", 67), ("pop3", 110), ("imap", 143), ("mysql", 3306),
   ("postgresql", 5432), ("rdp", 3389)]

/-- Random draws and wall-clock readings consumed by one
`create_connection` call. -/
structure CreateConnOracle where
  port_draws : Nat → Nat := fun _ => 49152 -- successive randint(49152, 65535)
  proto_choice : Protocol := .tcp          -- random.choices over the distribution
  fallback_port : Nat := 0                 -- random.choice over service_ports values
  conn_seq : Nat := 1000                   -- Connection.__init__ randint
  now : ℚ := 0                             -- datetime.now()
  unix_time : Nat := 0                     -- int(time.time()) in the conn id

/-- The bounded retry loop of `_allocate_port` (up to 100 draws, skipping
ports already used by the node). -/
def allocatePortTry (used : List Nat) (draws : Nat → Nat) :
    Nat → Nat → Option Nat
  | _, 0 => none
  | i, k + 1 =>
    let port := draws i
    if port ∈ used then allocatePortTry used draws (i + 1) k else some port

/-- `TrafficGenerator._allocate_port`: try 100 draws against the node's
used-port set, record a fresh port on success, fall back to an unchecked
draw when exhausted. -/
def allocate_port (g : TrafficGenerator) (node_id : String)
    (draws : Nat → Nat) : Nat × TrafficGenerator :=
  let used := ((g.used_ports.find? (fun x => x.1 == node_id)).map
    (fun x => x.2)).getD []
  match allocatePortTry used draws 0 100 with
  | some p =>
    (p, { g with used_ports := dictInsert g.used_ports node_id (used ++ [p]) })
  | none => (draws 100, { g with used_ports := dictInsert g.used_ports node_id used })

/-- First advertised service of the destination that appears in
`service_ports`, as in the `for service in dest_node.services` loop. -/
def findServicePort : List String → Option Nat
  | [] => none
  | s :: rest =>
    match service_ports.find? (fun x => x.1 == s) with
    | some x => some x.2
    | none => findServicePort rest

/-- `TrafficGenerator.create_connection`: `none` (and no state change)
when either endpoint is unknown to the topology or the endpoints
coincide; otherwise allocate ports, build the `Connection`, register it
and its flow, count it in the stats and add the pattern's load to the
connecting edge.  (`if not pattern` is a Python falsy check that an enum
member never satisfies.) -/
def create_connection (g : TrafficGenerator) (source_id destination_id : String)
    (pattern : TrafficPattern) (o : CreateConnOracle) :
    Option Connection × TrafficGenerator :=
  let source_node := (g.network_nodes.find? (fun x => x.1 == source_id)).map
    (fun x => x.2)
  let dest_node := (g.network_nodes.find? (fun x => x.1 == destination_id)).map
    (fun x => x.2)
  if source_node = none ∨ dest_node = none then (none, g)
  else if source_id = destination_id then (none, g)
  else
    let protocol :=
      if pattern.protocolName = "TCP" then Protocol.tcp
      else if pattern.protocolName = "UDP" then Protocol.udp
      else if pattern.protocolName = "DNS" then Protocol.dns
      else o.proto_choice
    let pg := allocate_port g source_id o.port_draws
    let source_port := pg.1
    let dest_port :=
      match findServicePort ((dest_node.map (fun n => n.services)).getD []) with
      | some p => p
      | none => ((service_ports.map (fun x => x.2)).getD
          (o.fallback_port % service_ports.length) 80)
    let conn_id := "conn_" ++ source_id ++ "_" ++ destination_id ++ "_" ++
      protocol.value ++ "_" ++ toString o.unix_time
    let connection := Connection.init conn_id source_id destination_id
      (((source_node.map (fun n => n.ip_address)).getD ""))
      (((dest_node.map (fun n => n.ip_address)).getD ""))
      protocol source_port dest_port pattern
      { initial_seq := o.conn_seq, now := o.now }
    let g' := { pg.2 with
      connections := dictInsert pg.2.connections conn_id connection,
      active_flows := if connection.flow_id ∈ pg.2.active_flows
        then pg.2.active_flows else pg.2.active_flows ++ [connection.flow_id],
      traffic_stats :=
        if protocol = Protocol.tcp then
          { pg.2.traffic_stats with
            tcp_connections := pg.2.traffic_stats.tcp_connections + 1 }
        else if protocol = Protocol.udp then
          { pg.2.traffic_stats with
            udp_flows := pg.2.traffic_stats.udp_flows + 1 }
        else pg.2.traffic_stats }
    let g'' := { g' with
      network_edges := g'.network_edges.map (fun x =>
        if (x.2.source_id == source_id && x.2.target_id == destination_id) ||
           (x.2.source_id == destination_id && x.2.target_id == source_id) then
          (x.1, { x.2 with traffic_volume := x.2.traffic_volume +
            pattern.packet_rate * (pattern.avg_packet_size : ℚ) / 8 })
        else x) }
    (some connection, g'')

/-- C9: `create_connection` returns `none`, raises nothing, and leaves the
generator (connections, flows, ports, stats) completely unchanged whenever
the source id or destination id is unknown to the topology or the two ids
coincide. -/
theorem create_connection_none_on_invalid (g : TrafficGenerator)
    (source_id destination_id : String) (pattern : TrafficPattern)
    (o : CreateConnOracle)
    (h : g.network_nodes.find? (fun x => x.1 == source_id) = none ∨
         g.network_nodes.find? (fun x => x.1 == destination_id) = none ∨
         source_id = destination_id) :
    create_connection g source_id destination_id pattern o = (none, g) := by
  unfold create_connection
  rcases h with h | h | h
  · rw [if_pos (Or.inl (by rw [h]; rfl))]
  · rw [if_pos (Or.inr (by rw [h]; rfl))]
  · by_cases h2 : (g.network_nodes.find? (fun x => x.1 == source_id)).map
        (fun x => x.2) = none ∨
      (g.network_nodes.find? (fun x => x.1 == destination_id)).map
        (fun x => x.2) = none
    · rw [if_pos h2]
    · rw [if_neg h2, if_pos h]

/-- A one-node generator for the C9 witness. -/
def oneNodeTG : TrafficGenerator :=
  { network_nodes := [("A", { id := "A", ip_address := "10.0.0.1" })] }

/-- Witness for C9: on a topology knowing only node `A`, creating a
connection to the unknown node `B`, and a self-connection `A → A`, both
return `none` and leave the generator untouched. -/
theorem create_connection_none_on_invalid_witness :
    oneNodeTG.network_nodes.find? (fun x => x.1 == "B") = none ∧
    create_connection oneNodeTG "A" "B" .webBrowsing {} = (none, oneNodeTG) ∧
    create_connection oneNodeTG "A" "A" .webBrowsing {} = (none, oneNodeTG) :=
  ⟨rfl,
   create_connection_none_on_invalid oneNodeTG "A" "B" .webBrowsing {}
     (Or.inr (Or.inl rfl)),
   create_connection_none_on_invalid oneNodeTG "A" "A" .webBrowsing {}
     (Or.inr (Or.inr rfl))⟩

end AegisGuard
